import Mathlib

/-!
# Verification of the leblebbot identity-resolution / chat-aggregation pipeline

Shallow embedding of the core pipeline in `backend/api/routes.py`:
phone-number normalization (`clean_phone_number`), the contact-cache and
`@lid → @s.whatsapp.net` mapping construction (`get_cached_contacts`), the
chat-list aggregator (`get_whatsapp_chats`) and the message merger
(`get_whatsapp_chat_messages`).

Strings are modelled as `List Char` (`Str`); Python's `str.replace`,
substring test (`in`), `split`, slicing and `str.isdigit` are embedded as
executable functions below.  Python dicts are modelled as insertion-ordered
association lists, matching CPython's key-order semantics which the code
relies on.  Gateway (Evolution API) responses, the current wall-clock time
and the result of `datetime.fromtimestamp(..).isoformat()` are external
inputs, threaded as explicit parameters.
-/

namespace Leblebbot

/-- Strings as lists of characters (Python `str`). -/
abbrev Str := List Char

/-- Python substring test `pat in s`. -/
def strContains : Str → Str → Bool
  | [], pat => pat.isPrefixOf ([] : Str)
  | c :: t, pat => pat.isPrefixOf (c :: t) || strContains t pat

/-- Fuel-driven core of `replaceAll`; the fuel is the input length, which
is always sufficient (each step consumes at least one character). -/
def replaceAllAux (pat rep : Str) : Nat → Str → Str
  | 0, s => s
  | _ + 1, [] => []
  | fuel + 1, c :: t =>
    if pat ≠ [] ∧ pat.isPrefixOf (c :: t) then
      rep ++ replaceAllAux pat rep fuel ((c :: t).drop pat.length)
    else
      c :: replaceAllAux pat rep fuel t

/-- Python `s.replace(pat, rep)`: replace every non-overlapping occurrence
of `pat`, scanning left to right.  (The code never calls `replace` with an
empty pattern; for `pat = []` this returns `s` unchanged.) -/
def replaceAll (pat rep s : Str) : Str :=
  replaceAllAux pat rep s.length s

/-- Python `s.split(sep)[0]` for a one-character separator. -/
def takeUntil (sep : Char) (s : Str) : Str := s.takeWhile (· ≠ sep)

/-- Python `s[-n:]` (last `n` characters; the whole string when shorter). -/
def lastN (n : Nat) (s : Str) : Str := s.drop (s.length - n)

/-- Python truthiness of an optional string: `None` and `""` are falsy. -/
def optStr (o : Option Str) : Str := o.getD []

/-- Python `s.isdigit()` (restricted to ASCII digits, which is what the
JIDs and mention tokens consist of). -/
def isDigits (s : Str) : Bool := s ≠ [] && s.all Char.isDigit

/-- The `@s.whatsapp.net` suffix marking a direct (phone-shaped) JID. -/
def waSuffix : Str := "@s.whatsapp.net".data

/-- The `@g.us` suffix marking a group JID. -/
def gusSuffix : Str := "@g.us".data

/-- The `@lid` suffix marking an internal (gateway-assigned) JID. -/
def lidSuffix : Str := "@lid".data

/-- Association-list lookup (Python `d.get(k)` / `k in d`). -/
def lookupS {α : Type} : List (Str × α) → Str → Option α
  | [], _ => none
  | (k', v) :: t, k => if k' = k then some v else lookupS t k

/-- Python dict assignment `d[k] = v`: overwrite in place if the key is
present (keeping its position), append otherwise. -/
def setOrAdd {α : Type} : List (Str × α) → Str → α → List (Str × α)
  | [], k, v => [(k, v)]
  | (k', v') :: t, k, v =>
    if k' = k then (k, v) :: t else (k', v') :: setOrAdd t k v

/-!
## `clean_phone_number` (routes.py lines 741–781)
-/

/-- The final length checks of `clean_phone_number`: `> 15` digits is an
internal ID (empty result), 14–15 digits keep the last 12, otherwise the
value is returned as is. -/
def tailClean (phone : Str) : Str :=
  if phone.length > 15 then []
  else if phone.length > 13 then lastN 12 phone
  else phone

/-- `clean_phone_number(jid)`: strip the JID suffixes, split dash-shaped
group IDs, truncate `120…`-prefixed long group IDs to the last 10 digits,
map `@lid` JIDs (that did not take the `120` branch) to the empty string,
and apply the final length checks. -/
def cleanPhoneNumber (jid : Str) : Str :=
  let is_lid := strContains jid lidSuffix
  let phone := replaceAll lidSuffix []
    (replaceAll gusSuffix [] (replaceAll waSuffix [] jid))
  let phone :=
    if strContains phone ['-'] ∧ phone.length > 13 then takeUntil '-' phone
    else phone
  if "120".data.isPrefixOf phone ∧ phone.length > 15 then
    tailClean (lastN 10 phone)
  else if is_lid then []
  else tailClean phone

example : cleanPhoneNumber "201141689099-1600219065".data = "201141689099".data := by decide
example : cleanPhoneNumber "123456789@s.whatsapp.net".data = "123456789".data := by decide
example : cleanPhoneNumber "1474961429447@lid".data = [] := by decide
example : cleanPhoneNumber "1200000000000000@lid".data = "0000000000".data := by decide
example : cleanPhoneNumber "@g@g.us.us".data = "@g.us".data := by decide
example : cleanPhoneNumber "@g.us".data = [] := by decide

/-!
## Lemmas about the string primitives
-/

theorem strContains_append_self (xs p : Str) (h : strContains p p = true) :
    strContains (xs ++ p) p = true := by
  induction xs with
  | nil => simpa using h
  | cons c t ih => simp [strContains, ih]

theorem replaceAllAux_fuel_irrel (pat rep : Str) :
    ∀ f₁ f₂ s, s.length ≤ f₁ → s.length ≤ f₂ →
      replaceAllAux pat rep f₁ s = replaceAllAux pat rep f₂ s := by
  intro f₁
  induction f₁ with
  | zero =>
    intro f₂ s h₁ _
    have : s = [] := List.length_eq_zero.mp (Nat.le_zero.mp h₁)
    subst this
    cases f₂ <;> rfl
  | succ f ih =>
    intro f₂ s h₁ h₂
    cases s with
    | nil => cases f₂ <;> rfl
    | cons c t =>
      cases f₂ with
      | zero => simp at h₂
      | succ f' =>
        simp only [replaceAllAux]
        split
        · next hm =>
          have hplen : 1 ≤ pat.length := by
            cases hp : pat with
            | nil => exact absurd hp hm.1
            | cons a b => simp
          have hdlen : ((c :: t).drop pat.length).length ≤ f := by
            simp only [List.length_drop, List.length_cons]
            simp only [List.length_cons] at h₁
            omega
          have hdlen' : ((c :: t).drop pat.length).length ≤ f' := by
            simp only [List.length_drop, List.length_cons]
            simp only [List.length_cons] at h₂
            omega
          rw [ih f' _ hdlen hdlen']
        · have ht : t.length ≤ f := by simp only [List.length_cons] at h₁; omega
          have ht' : t.length ≤ f' := by simp only [List.length_cons] at h₂; omega
          rw [ih f' t ht ht']

theorem replaceAll_nil (pat rep : Str) : replaceAll pat rep [] = [] := rfl

theorem replaceAll_cons_no_match {pat : Str} (rep : Str) {c : Char} {t : Str}
    (h : ¬(pat ≠ [] ∧ pat.isPrefixOf (c :: t))) :
    replaceAll pat rep (c :: t) = c :: replaceAll pat rep t := by
  show replaceAllAux pat rep (t.length + 1) (c :: t) = c :: replaceAll pat rep t
  simp only [replaceAllAux, if_neg h]
  rfl

theorem char_isDigit_ne_at {c : Char} (h : c.isDigit = true) : c ≠ '@' := by
  intro hc; subst hc; simp at h

/-- Replacing a pattern that starts with `'@'` leaves a leading run of
digit characters untouched. -/
theorem replaceAll_append_digits {pat : Str} (rep : Str) {p' : Str}
    (hpat : pat = '@' :: p') {part : Str} (hd : ∀ c ∈ part, c.isDigit) (tail : Str) :
    replaceAll pat rep (part ++ tail) = part ++ replaceAll pat rep tail := by
  induction part with
  | nil => simp
  | cons c rest ih =>
    have hc : c.isDigit := hd c (by simp)
    have hnm : ¬(pat ≠ [] ∧ pat.isPrefixOf (c :: (rest ++ tail))) := by
      rintro ⟨-, hpre⟩
      rw [hpat] at hpre
      simp only [List.isPrefixOf, Bool.and_eq_true, beq_iff_eq] at hpre
      exact char_isDigit_ne_at hc hpre.1.symm
    rw [List.cons_append, replaceAll_cons_no_match rep hnm,
      ih (fun x hx => hd x (by simp [hx]))]
    rfl

/-- A string of digit characters cannot contain a pattern whose first
character is not a digit. -/
theorem strContains_digits_false {part : Str} (hd : ∀ c ∈ part, c.isDigit)
    {c₀ : Char} {rest : Str} (hpat : ¬c₀.isDigit) :
    strContains part (c₀ :: rest) = false := by
  induction part with
  | nil => rfl
  | cons c t ih =>
    have hcc : c₀ ≠ c := fun he => hpat (he ▸ hd c (by simp))
    have hbe : (c₀ == c) = false := beq_eq_false_iff_ne.mpr hcc
    simp only [strContains, List.isPrefixOf, hbe, Bool.false_and, Bool.false_or]
    exact ih (fun x hx => hd x (by simp [hx]))

theorem replaceAll_no_occ {pat : Str} (rep : Str) {s : Str}
    (h : strContains s pat = false) : replaceAll pat rep s = s := by
  induction s with
  | nil => rfl
  | cons c t ih =>
    simp only [strContains, Bool.or_eq_false_iff] at h
    rw [replaceAll_cons_no_match rep (fun hm => by simp [hm.2] at h), ih h.2]

theorem tailClean_length (p : Str) : (tailClean p).length ≤ 13 := by
  unfold tailClean
  split
  · simp
  · split
    · simp only [lastN, List.length_drop]; omega
    · omega

theorem tailClean_short {p : Str} (h : p.length ≤ 13) : tailClean p = p := by
  unfold tailClean
  rw [if_neg (by omega), if_neg (by omega)]

/-- The normalized form produced by `clean_phone_number` is at most 13
characters long (empty for internal IDs, at most 12 after heavy
truncation, at most 13 otherwise). -/
theorem cleanPhoneNumber_length (jid : Str) : (cleanPhoneNumber jid).length ≤ 13 := by
  simp only [cleanPhoneNumber]
  split <;> split <;> (try split) <;> simp [tailClean_length]

/-!
## Claims C4 and C5: normalization of internal JIDs, idempotence
-/

/-- C4, counterexample: the claim "every `@lid` JID whose digit part has
length 16 normalizes to the empty string" fails at
`"1200000000000000@lid"`: its 16-digit part starts with `"120"`, so
`clean_phone_number` takes the long-group-ID branch first and returns the
last 10 digits `"0000000000"` instead of the empty string. -/
theorem clean_lid16_group_prefix_cex :
    ("1200000000000000".data.length = 16 ∧ ∀ c ∈ "1200000000000000".data, c.isDigit) ∧
      cleanPhoneNumber "1200000000000000@lid".data ≠ [] := by decide

/-- C4 (amended): an `@lid` JID whose digit part has length 16 **and does
not start with `"120"`** normalizes to the empty string (the `120…` case
is instead truncated to its last 10 digits by the group-ID branch). -/
theorem clean_lid16_empty (part : Str) (_hlen : part.length = 16)
    (hd : ∀ c ∈ part, c.isDigit) (h120 : ¬"120".data.isPrefixOf part) :
    cleanPhoneNumber (part ++ lidSuffix) = [] := by
  have hlid : strContains (part ++ lidSuffix) lidSuffix = true :=
    strContains_append_self part lidSuffix (by decide)
  have e1 : replaceAll waSuffix [] (part ++ lidSuffix) = part ++ lidSuffix := by
    rw [replaceAll_append_digits []
      (show waSuffix = '@' :: "s.whatsapp.net".data by decide) hd lidSuffix]
    rw [show replaceAll waSuffix [] lidSuffix = lidSuffix by decide]
  have e2 : replaceAll gusSuffix [] (part ++ lidSuffix) = part ++ lidSuffix := by
    rw [replaceAll_append_digits []
      (show gusSuffix = '@' :: "g.us".data by decide) hd lidSuffix]
    rw [show replaceAll gusSuffix [] lidSuffix = lidSuffix by decide]
  have e3 : replaceAll lidSuffix [] (part ++ lidSuffix) = part := by
    rw [replaceAll_append_digits []
      (show lidSuffix = '@' :: "lid".data by decide) hd lidSuffix]
    rw [show replaceAll lidSuffix [] lidSuffix = [] by decide, List.append_nil]
  have hdash : strContains part ['-'] = false :=
    strContains_digits_false hd (by decide)
  simp only [cleanPhoneNumber, e1, e2, e3, hlid, hdash, Bool.false_eq_true,
    false_and, if_false, if_true]
  rw [if_neg (fun h => h120 h.1)]

/-- C4 witness: the amended theorem applied to the concrete 16-digit
internal identifier `1234567890123456@lid`. -/
theorem clean_lid16_empty_witness :
    ("1234567890123456".data.length = 16 ∧ (∀ c ∈ "1234567890123456".data, c.isDigit) ∧
        ¬"120".data.isPrefixOf "1234567890123456".data) ∧
      cleanPhoneNumber ("1234567890123456".data ++ lidSuffix) = [] :=
  ⟨⟨by decide, by decide, by decide⟩,
    clean_lid16_empty "1234567890123456".data (by decide) (by decide) (by decide)⟩

/-- C5, counterexample: `clean_phone_number` is not idempotent on every
input.  At `"@g@g.us.us"` the `"@g.us"`-suffix removal *creates* a new
`"@g.us"` occurrence, so the first normalization returns `"@g.us"`, and
normalizing that again returns the empty string. -/
theorem clean_idempotent_cex :
    cleanPhoneNumber (cleanPhoneNumber "@g@g.us.us".data) ≠
      cleanPhoneNumber "@g@g.us.us".data := by decide

/-- C5 (amended): normalization is idempotent on every input whose
normalized form contains none of the three JID suffix markers
(`@s.whatsapp.net`, `@g.us`, `@lid`); such residual markers can only be
produced by pathological inputs in which removing one marker splices a
new one together. -/
theorem clean_idempotent_of_marker_free (jid : Str)
    (h1 : strContains (cleanPhoneNumber jid) waSuffix = false)
    (h2 : strContains (cleanPhoneNumber jid) gusSuffix = false)
    (h3 : strContains (cleanPhoneNumber jid) lidSuffix = false) :
    cleanPhoneNumber (cleanPhoneNumber jid) = cleanPhoneNumber jid := by
  have hlen := cleanPhoneNumber_length jid
  generalize hgen : cleanPhoneNumber jid = y at h1 h2 h3 hlen ⊢
  simp only [cleanPhoneNumber]
  rw [replaceAll_no_occ [] h1, replaceAll_no_occ [] h2, replaceAll_no_occ [] h3]
  have hdashif : (if strContains y ['-'] = true ∧ y.length > 13
      then takeUntil '-' y else y) = y :=
    if_neg (fun hc => absurd hc.2 (by omega))
  rw [hdashif]
  rw [if_neg (fun hc : _ ∧ y.length > 15 => absurd hc.2 (by omega))]
  rw [if_neg (show ¬strContains y lidSuffix = true by simp [h3])]
  exact tailClean_short (by omega)

/-- C5 witness: idempotence at the direct JID `1234@s.whatsapp.net`,
whose normalized form `"1234"` is marker-free. -/
theorem clean_idempotent_witness :
    (strContains (cleanPhoneNumber "1234@s.whatsapp.net".data) waSuffix = false ∧
        strContains (cleanPhoneNumber "1234@s.whatsapp.net".data) gusSuffix = false ∧
        strContains (cleanPhoneNumber "1234@s.whatsapp.net".data) lidSuffix = false) ∧
      cleanPhoneNumber (cleanPhoneNumber "1234@s.whatsapp.net".data) =
        cleanPhoneNumber "1234@s.whatsapp.net".data :=
  ⟨⟨by decide, by decide, by decide⟩,
    clean_idempotent_of_marker_free "1234@s.whatsapp.net".data
      (by decide) (by decide) (by decide)⟩

/-!
## Contact records (values of `contacts_map` built by `get_cached_contacts`)
-/

/-- One value of `contacts_map`: the dict built by `get_cached_contacts`
(name, group subject, profile picture, group flag, linked phone/`@lid`
JIDs).  `ContactInfo.empty` models the `{}` default of
`contacts_map.get(key, {})`. -/
structure ContactInfo where
  name : Option Str
  subject : Option Str
  profile_pic : Option Str
  is_group : Bool
  phone_jid : Option Str
  lid_jid : Option Str
deriving DecidableEq

/-- The empty dict `{}` used as lookup default. -/
def ContactInfo.empty : ContactInfo := ⟨none, none, none, false, none, none⟩

/-!
## Mention-token rewrite (routes.py lines 1282–1304)

Models the `re.findall(r'@(\d{10,})', content)` scan and the per-token
replacement loop of `get_whatsapp_chat_messages`.
-/

/-- Fuel-driven scan for `@<digits>` tokens: at each `'@'` take the
maximal following digit run; capture it when it has at least 10 digits
and continue scanning after it (non-overlapping, like `re.findall`). -/
def findMentionsAux : Nat → Str → List Str
  | 0, _ => []
  | _ + 1, [] => []
  | fuel + 1, c :: t =>
    if c = '@' then
      let run := t.takeWhile Char.isDigit
      if 10 ≤ run.length then run :: findMentionsAux fuel (t.drop run.length)
      else findMentionsAux fuel t
    else findMentionsAux fuel t

/-- All `@(\d{10,})` capture groups of `content`, left to right. -/
def findMentions (s : Str) : List Str := findMentionsAux s.length s

/-- The generic participant placeholder `مشارك` prefixed with `@`. -/
def mentionPlaceholder : Str := "@مشارك".data

/-- One iteration of the mention-rewrite loop: a token longer than 15
digits is replaced by the generic placeholder; otherwise the token is
resolved through the `@lid → phone` map and the contact directory to a
display name, falling back to the raw phone number, falling back to
leaving the token unchanged. -/
def applyMention (lidMap : List (Str × Str)) (contactsMap : List (Str × ContactInfo))
    (content m : Str) : Str :=
  if m.length > 15 then replaceAll ('@' :: m) mentionPlaceholder content
  else
    match lookupS lidMap (m ++ lidSuffix) with
    | none => content
    | some phoneJid =>
      let realPhone := replaceAll waSuffix [] phoneJid
      let name := optStr ((lookupS contactsMap realPhone).getD ContactInfo.empty).name
      if name ≠ [] ∧ ¬isDigits name then replaceAll ('@' :: m) ('@' :: name) content
      else replaceAll ('@' :: m) ('@' :: realPhone) content

/-- The full mention-rewrite step applied to a message's text content
(a no-op on falsy, i.e. empty, content). -/
def rewriteMentions (lidMap : List (Str × Str)) (contactsMap : List (Str × ContactInfo))
    (content : Str) : Str :=
  if content = [] then content
  else (findMentions content).foldl (applyMention lidMap contactsMap) content

/-- C6 (confirmed): for any identifier mapping and contact directory, the
text `"hello @1234567890123456 friend"` — whose mention token has 16
digits, exceeding the 15-digit plausible-identifier threshold — rewrites
to `"hello @مشارك friend"`, replacing only the token. -/
theorem mention_rewrite_16_digit_placeholder
    (lidMap : List (Str × Str)) (contactsMap : List (Str × ContactInfo)) :
    rewriteMentions lidMap contactsMap "hello @1234567890123456 friend".data =
      "hello @مشارك friend".data := rfl

/-!
## `get_cached_contacts` (routes.py lines 176–289)

The raw contact records returned by the gateway, the four processing
passes building `contacts_map` and the `@lid → @s.whatsapp.net` mapping,
and the 300-second TTL cache wrapper.  The write-only locals
`phone_to_pic` (pass 3) and the set `phones_with_normal_jid` (chat
aggregation) are dead code in the source and are not modelled.
-/

/-- One raw contact record from the gateway contact directory. -/
structure RawContact where
  remoteJid : Str
  pushName : Option Str
  name : Option Str
  subject : Option Str
  profilePicUrl : Option Str
  isGroup : Bool
  ctype : Option Str
deriving DecidableEq

/-- `contact.get("isGroup", False) or contact.get("type") == "group" or
"@g.us" in jid`. -/
def isGroupContact (c : RawContact) : Bool :=
  c.isGroup || c.ctype = some "group".data || strContains c.remoteJid gusSuffix

/-- The self-reference names excluded when building the contact cache. -/
def cacheSelfNames : List Str := ["Você".data, "You".data, "أنت".data, "Yo".data]

/-- First pass: individual contacts, stored under their full JID and,
when different and non-empty, under their cleaned phone number. -/
def contactsPass1 (contacts : List RawContact) : List (Str × ContactInfo) :=
  contacts.foldl
    (fun m c =>
      let jid := c.remoteJid
      if jid = [] then m
      else if isGroupContact c then m
      else
        let name := if optStr c.pushName ≠ [] then optStr c.pushName else optStr c.name
        if name = [] ∨ name ∈ cacheSelfNames then m
        else
          let data : ContactInfo :=
            { name := some name, subject := none, profile_pic := c.profilePicUrl,
              is_group := false,
              phone_jid := if strContains jid waSuffix then some jid else none,
              lid_jid := none }
          let m := setOrAdd m jid data
          let cp := cleanPhoneNumber jid
          if cp ≠ [] ∧ cp ≠ jid then setOrAdd m cp data else m)
    []

/-- Second pass: group contacts, stored only under their full JID. -/
def contactsPass2 (contacts : List RawContact) (m0 : List (Str × ContactInfo)) :
    List (Str × ContactInfo) :=
  contacts.foldl
    (fun m c =>
      let jid := c.remoteJid
      if jid = [] then m
      else if ¬isGroupContact c then m
      else
        let name :=
          if optStr c.pushName ≠ [] then optStr c.pushName
          else if optStr c.subject ≠ [] then optStr c.subject
          else optStr c.name
        if name = [] ∨ name ∈ cacheSelfNames then m
        else
          let data : ContactInfo :=
            { name := some name,
              subject := some (if optStr c.subject ≠ [] then optStr c.subject else name),
              profile_pic := c.profilePicUrl, is_group := true,
              phone_jid := none, lid_jid := none }
          setOrAdd m jid data)
    m0

/-- The profile-picture fingerprint: `pic_url.split("/")[-1].split("?")[0]`
(the last path segment, without the query string). -/
def picKeyOf (u : Str) : Str := takeUntil '?' ((u.reverse.takeWhile (· ≠ '/')).reverse)

/-- Third pass: fingerprint → direct-JID map from every
`@s.whatsapp.net` contact with a profile picture whose fingerprint is
longer than 10 characters.  The dict assignment is unconditional, so a
later record with the same fingerprint overwrites an earlier one. -/
def buildPicToPhone (contacts : List RawContact) : List (Str × Str) :=
  contacts.foldl
    (fun m c =>
      let jid := c.remoteJid
      let pic := optStr c.profilePicUrl
      if strContains jid waSuffix ∧ pic ≠ [] then
        let picKey := picKeyOf pic
        if picKey ≠ [] ∧ picKey.length > 10 then setOrAdd m picKey jid else m
      else m)
    []

/-- Fourth pass: for every `@lid` contact whose fingerprint matches a
direct contact, record the `internal → direct` mapping and mirror the
direct contact's data under the `@lid` JID. -/
def contactsPass4 (contacts : List RawContact) (picToPhone : List (Str × Str))
    (m0 : List (Str × ContactInfo)) :
    List (Str × ContactInfo) × List (Str × Str) :=
  contacts.foldl
    (fun (st : List (Str × ContactInfo) × List (Str × Str)) c =>
      let (m, lidMap) := st
      let jid := c.remoteJid
      let pic := optStr c.profilePicUrl
      if strContains jid lidSuffix ∧ pic ≠ [] then
        let picKey := picKeyOf pic
        if picKey ≠ [] ∧ picKey.length > 10 then
          match lookupS picToPhone picKey with
          | some phoneJid =>
            let lidMap := setOrAdd lidMap jid phoneJid
            match lookupS m phoneJid with
            | some ci =>
              (setOrAdd m jid { ci with lid_jid := some jid, phone_jid := some phoneJid },
                lidMap)
            | none => (m, lidMap)
          | none => (m, lidMap)
        else (m, lidMap)
      else (m, lidMap))
    (m0, [])

/-- The result of one contacts rebuild: `contacts_map` plus the
`@lid → @s.whatsapp.net` map (stored in Python under the sentinel key
`"__lid_to_phone__"` of the same dict, modelled here as a second field). -/
structure ContactsMapResult where
  map : List (Str × ContactInfo)
  lidToPhone : List (Str × Str)
deriving DecidableEq

/-- The full rebuild of the contact directory from a fetched contact
list (passes 1–4 of `get_cached_contacts`). -/
def buildContactsMap (contacts : List RawContact) : ContactsMapResult :=
  let m1 := contactsPass1 contacts
  let m2 := contactsPass2 contacts m1
  let picToPhone := buildPicToPhone contacts
  let m4 := contactsPass4 contacts picToPhone m2
  ⟨m4.1, m4.2⟩

/-- The `_contacts_cache` global: payload (`none` models the initial
empty dict, which is falsy), fetch timestamp, and TTL (300 s). -/
structure ContactsCache where
  data : Option ContactsMapResult
  timestamp : Nat
  ttl : Nat
deriving DecidableEq

/-- `get_cached_contacts` as a state transition: given the stored cache
state, the current time, and the contact list an upstream fetch would
return, produce the returned map, the new cache state, and whether the
single upstream fetch was performed. -/
def getCachedContacts (st : ContactsCache) (now : Nat) (fetched : List RawContact) :
    ContactsMapResult × ContactsCache × Bool :=
  match st.data with
  | some d =>
    if now - st.timestamp < st.ttl then (d, st, false)
    else
      let cm := buildContactsMap fetched
      (cm, ⟨some cm, now, st.ttl⟩, true)
  | none =>
    let cm := buildContactsMap fetched
    (cm, ⟨some cm, now, st.ttl⟩, true)

/-!
## Claim C3: tie-break order of the fingerprint-correlation pass
-/

theorem lookupS_setOrAdd_self {α : Type} (m : List (Str × α)) (k : Str) (v : α) :
    lookupS (setOrAdd m k v) k = some v := by
  induction m with
  | nil => simp [setOrAdd, lookupS]
  | cons p t ih =>
    obtain ⟨k', v'⟩ := p
    by_cases h : k' = k
    · subst h; simp [setOrAdd, lookupS]
    · simp [setOrAdd, lookupS, h, ih]

/-- C3, counterexample: first match does **not** win.  Two direct
contacts sharing the same profile-picture fingerprint: after processing
only the first, the fingerprint maps to `111@s.whatsapp.net`; after
processing both, the unconditional dict assignment has overwritten the
entry with the second contact's JID `222@s.whatsapp.net`. -/
theorem mapping_first_match_cex :
    lookupS
        (buildPicToPhone
          [⟨"111@s.whatsapp.net".data, none, none, none,
            some "https://p/AAAAAAAAAAA".data, false, none⟩])
        "AAAAAAAAAAA".data = some "111@s.whatsapp.net".data ∧
      lookupS
        (buildPicToPhone
          [⟨"111@s.whatsapp.net".data, none, none, none,
            some "https://p/AAAAAAAAAAA".data, false, none⟩,
          ⟨"222@s.whatsapp.net".data, none, none, none,
            some "https://p/AAAAAAAAAAA".data, false, none⟩])
        "AAAAAAAAAAA".data = some "222@s.whatsapp.net".data ∧
      "222@s.whatsapp.net".data ≠ "111@s.whatsapp.net".data := by decide

/-- C3 (amended): within a fingerprint-correlation pass the dict
assignment is unconditional, so the **last** matching contact record
wins: appending a matching direct contact to any contact list makes the
fingerprint entry point to that contact's JID, overwriting any entry set
earlier in the pass. -/
theorem mapping_last_match_wins (cs : List RawContact) (c : RawContact)
    (hjid : strContains c.remoteJid waSuffix = true)
    (hpic : optStr c.profilePicUrl ≠ [])
    (hkey : picKeyOf (optStr c.profilePicUrl) ≠ [] ∧
      (picKeyOf (optStr c.profilePicUrl)).length > 10) :
    lookupS (buildPicToPhone (cs ++ [c])) (picKeyOf (optStr c.profilePicUrl)) =
      some c.remoteJid := by
  unfold buildPicToPhone
  rw [List.foldl_append]
  simp only [List.foldl_cons, List.foldl_nil]
  rw [if_pos ⟨hjid, hpic⟩, if_pos hkey]
  exact lookupS_setOrAdd_self _ _ _

/-- C3 witness: the amended last-match-wins theorem applied to the
two-contact counterexample input. -/
theorem mapping_last_match_wins_witness :
    (strContains "222@s.whatsapp.net".data waSuffix = true ∧
        optStr (some "https://p/AAAAAAAAAAA".data) ≠ [] ∧
        picKeyOf (optStr (some "https://p/AAAAAAAAAAA".data)) ≠ [] ∧
        (picKeyOf (optStr (some "https://p/AAAAAAAAAAA".data))).length > 10) ∧
      lookupS
        (buildPicToPhone
          ([⟨"111@s.whatsapp.net".data, none, none, none,
            some "https://p/AAAAAAAAAAA".data, false, none⟩] ++
          [⟨"222@s.whatsapp.net".data, none, none, none,
            some "https://p/AAAAAAAAAAA".data, false, none⟩]))
        (picKeyOf (optStr (some "https://p/AAAAAAAAAAA".data))) =
        some "222@s.whatsapp.net".data :=
  ⟨⟨by decide, by decide, by decide, by decide⟩,
    mapping_last_match_wins _ _ (by decide) (by decide) ⟨by decide, by decide⟩⟩

/-!
## Claim C9: contact-directory cache TTL semantics
-/

/-- C9 (confirmed): with the configured 300-second TTL, a read whose
stored entry satisfies `now - storedAt < 300` returns the cached value,
performs no upstream fetch and leaves the state unchanged; a read whose
stored entry is at least the TTL old is a miss: it performs exactly one
upstream refetch, and the successful refetch builds the new contacts map
entirely from the fetched records (overwriting — never merging with —
the previous entry) and resets the stored timestamp to `now`. -/
theorem contacts_cache_ttl (st : ContactsCache) (now : Nat)
    (fetched : List RawContact) (httl : st.ttl = 300) :
    (∀ d, st.data = some d → now - st.timestamp < 300 →
        getCachedContacts st now fetched = (d, st, false)) ∧
      (300 ≤ now - st.timestamp →
        getCachedContacts st now fetched =
          (buildContactsMap fetched,
            ⟨some (buildContactsMap fetched), now, st.ttl⟩, true)) := by
  constructor
  · intro d hd hfresh
    simp [getCachedContacts, hd, httl, hfresh]
  · intro hstale
    cases hdata : st.data with
    | none => simp [getCachedContacts, hdata]
    | some d =>
      simp [getCachedContacts, hdata, httl]
      omega

/-- C9 witness: a fresh read at `now = 100` against an entry stored at
time 0 is a hit; a read at `now = 400` is a miss that refetches and
overwrites. -/
theorem contacts_cache_ttl_witness :
    (getCachedContacts ⟨some (buildContactsMap []), 0, 300⟩ 100 [] =
        (buildContactsMap [], ⟨some (buildContactsMap []), 0, 300⟩, false)) ∧
      (getCachedContacts ⟨some (buildContactsMap []), 0, 300⟩ 400
          [⟨"111@s.whatsapp.net".data, some "A".data, none, none, none, false, none⟩] =
        (buildContactsMap
            [⟨"111@s.whatsapp.net".data, some "A".data, none, none, none, false, none⟩],
          ⟨some (buildContactsMap
            [⟨"111@s.whatsapp.net".data, some "A".data, none, none, none, false, none⟩]),
            400, 300⟩, true)) :=
  ⟨(contacts_cache_ttl ⟨some (buildContactsMap []), 0, 300⟩ 100 [] rfl).1
      (buildContactsMap []) rfl (by decide),
    (contacts_cache_ttl ⟨some (buildContactsMap []), 0, 300⟩ 400
      [⟨"111@s.whatsapp.net".data, some "A".data, none, none, none, false, none⟩] rfl).2
      (by decide)⟩

/-!
## Chat-list aggregation: `get_whatsapp_chats` (routes.py lines 784–1107)

The group-metadata prefetch (lines 843–882) performs I/O that populates
the `_group_names_cache` / `_group_pics_cache` dicts read below; those
caches, the contact directory, the banned-user set and the current time
are threaded as explicit inputs (`ChatsEnv`).
-/

/-- The document part of a last-message payload (preview only needs the
file name). -/
structure PreviewDoc where
  fileName : Option Str
deriving DecidableEq

/-- The reaction part of a last-message payload. -/
structure PreviewReaction where
  text : Option Str
deriving DecidableEq

/-- The `message` dict of a chat's `lastMessage`, as probed by the
preview builder.  Media sub-dicts whose contents the preview never reads
are modelled by their truthiness. -/
structure ChatMsgBody where
  conversation : Option Str
  extendedText : Option Str
  imageMessage : Bool
  videoMessage : Bool
  audioMessage : Bool
  stickerMessage : Bool
  documentMessage : Option PreviewDoc
  reactionMessage : Option PreviewReaction
deriving DecidableEq

/-- The falsy `{}` default for `last_msg.get("message") or {}`. -/
def ChatMsgBody.empty : ChatMsgBody := ⟨none, none, false, false, false, false, none, none⟩

/-- A chat's `lastMessage` dict. -/
structure ChatLastMsg where
  messageTimestamp : Option Nat
  pushName : Option Str
  messageType : Str
  message : Option ChatMsgBody
deriving DecidableEq

/-- One raw chat record from the gateway chat list. -/
structure RawChat where
  remoteJid : Str
  lastMessage : Option ChatLastMsg
  unreadCount : Nat
  subject : Option Str
  notify : Option Str
  verifiedName : Option Str
  pushName : Option Str
  name : Option Str
  updatedAt : Option Str
  profilePicUrl : Option Str
deriving DecidableEq

/-- One row of the aggregated chat list (the dict appended at
routes.py lines 1077–1092). -/
structure ChatRow where
  id : Str
  remote_jid : Str
  phone : Str
  name : Str
  last_message : Str
  last_message_type : Str
  last_message_time : Str
  unread_count : Nat
  is_group : Bool
  profile_pic : Option Str
  is_banned : Bool
  platform : Str
  lid_jid : Option Str
  phone_jid : Option Str
deriving DecidableEq

/-- The ambient inputs of a chat-list request: cached contact directory,
`@lid → phone` map, pre-fetched group-name and group-picture caches,
banned phone numbers, and the current time rendered as
`datetime.utcnow().isoformat()`. -/
structure ChatsEnv where
  contactsMap : List (Str × ContactInfo)
  lidToPhone : List (Str × Str)
  groupNames : List (Str × Str)
  groupPics : List (Str × Option Str)
  banned : List Str
  nowIso : Str

/-- Decimal rendering of a natural number (fuel-driven, executable). -/
def natToDecAux : Nat → Nat → Str
  | 0, _ => []
  | f + 1, n => if n < 10 then [Nat.digitChar n] else natToDecAux f (n / 10) ++ [Nat.digitChar (n % 10)]

/-- Models `datetime.fromtimestamp(int(t)).isoformat()`: a call into the
external datetime library, represented as an injective timestamp-determined
rendering.  No claim depends on the concrete format, only on *which*
timestamp a row carries. -/
def isoformat (t : Nat) : Str := natToDecAux (t + 1) t

/-- Python `s.lower()` (per-character lowering). -/
def toLower (s : Str) : Str := s.map Char.toLower

/-- Lexicographic `<` on strings (Python string comparison), used as the
sort key comparator. -/
def strLtB : Str → Str → Bool
  | [], [] => false
  | [], _ :: _ => true
  | _ :: _, [] => false
  | a :: s, b :: t => if a < b then true else if b < a then false else strLtB s t

/-- The last-message preview: content and type tag, probed in the fixed
source order (text → extended text → image → video → audio → sticker →
document → reaction → unknown). -/
def chatPreview (lm : ChatLastMsg) : Str × Str :=
  let msg := lm.message.getD ChatMsgBody.empty
  let mt := lm.messageType
  if optStr msg.conversation ≠ [] then (optStr msg.conversation, "text".data)
  else if optStr msg.extendedText ≠ [] then (optStr msg.extendedText, "text".data)
  else if mt = "imageMessage".data ∨ msg.imageMessage then ("📷 صورة".data, "image".data)
  else if mt = "videoMessage".data ∨ msg.videoMessage then ("🎥 فيديو".data, "video".data)
  else if mt = "audioMessage".data ∨ msg.audioMessage then ("🎤 رسالة صوتية".data, "audio".data)
  else if mt = "stickerMessage".data ∨ msg.stickerMessage then ("🏷️ ملصق".data, "sticker".data)
  else if mt = "documentMessage".data ∨ msg.documentMessage.isSome then
    ("📄 ".data ++ (msg.documentMessage.getD ⟨none⟩).fileName.getD "مستند".data, "document".data)
  else if mt = "reactionMessage".data ∨ msg.reactionMessage.isSome then
    ("تفاعل ".data ++ (msg.reactionMessage.getD ⟨none⟩).text.getD "👍".data, "reaction".data)
  else ("[رسالة]".data, "text".data)

/-- Preview of an optional last message (empty text for chats without
one). -/
def chatPreviewOpt : Option ChatLastMsg → Str × Str
  | none => ([], "text".data)
  | some lm => chatPreview lm

/-- The row's time string: the last message's timestamp when truthy,
otherwise the chat's `updatedAt`, otherwise the current time. -/
def chatTimeStr (nowIso : Str) (chat : RawChat) : Str :=
  let ts := (chat.lastMessage.bind (·.messageTimestamp)).getD 0
  if ts ≠ 0 then isoformat ts
  else if optStr chat.updatedAt ≠ [] then optStr chat.updatedAt else nowIso

/-- The self-reference names excluded by individual-name resolution in
the chat aggregator. -/
def chatSelfNames : List Str :=
  ["Você".data, "You".data, "أنت".data, "Yo".data, "Tu".data, "Tú".data]

/-- A candidate display name is acceptable when non-empty and not a
self-reference (`not (not name or name in self_names)`). -/
def nameOk (n : Str) : Bool := n ≠ [] && n ∉ chatSelfNames

/-- The name-field part of the individual-chat fallback chain:
contact-directory name → chat notify → verified name → push name → chat
name → last message's push name (each step fires only while the current
candidate is empty or a self-reference). -/
def individualNameCandidate (ci : ContactInfo) (chat : RawChat) : Str :=
  let n := optStr ci.name
  let n := if nameOk n then n else optStr chat.notify
  let n := if nameOk n then n else optStr chat.verifiedName
  let n := if nameOk n then n else optStr chat.pushName
  let n := if nameOk n then n else optStr chat.name
  if nameOk n then n
  else
    match chat.lastMessage.bind (·.pushName) with
    | some mp => if mp ≠ [] ∧ mp ∉ chatSelfNames then mp else n
    | none => n

/-- The individual-chat name fallback chain, ending in the constructed
fallbacks: phone number, else `+<jid digits>`. -/
def individualName (ci : ContactInfo) (chat : RawChat) (phone remoteJid : Str) : Str :=
  let n := individualNameCandidate ci chat
  if nameOk n then n
  else if phone ≠ [] then phone
  else '+' :: takeUntil '@' remoteJid

/-- The group-chat name: pre-fetched group-subject cache → chat-level
subject → contact subject/name → generated `"مجموعة <suffix>"` label. -/
def groupDisplayName (groupNames : List (Str × Str)) (remoteJid : Str)
    (chat : RawChat) (ci : ContactInfo) (phone : Str) : Str :=
  let rg := (lookupS groupNames remoteJid).getD []
  if rg ≠ [] then rg
  else
    let cgn := if optStr ci.subject ≠ [] then optStr ci.subject else optStr ci.name
    if optStr chat.subject ≠ [] then optStr chat.subject
    else if cgn ≠ [] then cgn
    else "مجموعة ".data ++ lastN 4 phone

/-- Conditional update of the latest-timestamp map: record `(ts, jid)`
under `k` when `k` is new or `ts` is strictly newer. -/
def updTs (m : List (Str × (Nat × Str))) (k : Str) (ts : Nat) (j : Str) :
    List (Str × (Nat × Str)) :=
  match lookupS m k with
  | none => m ++ [(k, (ts, j))]
  | some (t0, _) => if ts > t0 then setOrAdd m k (ts, j) else m

/-- First pass over the raw chats (routes.py lines 823–841): for direct
chats, track the latest message timestamp per JID; for mapped `@lid`
chats, compete for the mapped direct JID's entry. -/
def chatsFirstPass (lidToPhone : List (Str × Str)) (chats : List RawChat) :
    List (Str × (Nat × Str)) :=
  chats.foldl
    (fun m chat =>
      let remoteJid := chat.remoteJid
      let ts := (chat.lastMessage.bind (·.messageTimestamp)).getD 0
      if strContains remoteJid waSuffix then updTs m remoteJid ts remoteJid
      else if strContains remoteJid lidSuffix then
        match lookupS lidToPhone remoteJid with
        | some phoneJid => updTs m phoneJid ts remoteJid
        | none => m
      else m)
    []

/-- The three-stage contact lookup of the main loop: full JID, then
normalized JID, then cleaned phone number, defaulting to `{}`. -/
def contactLookup (cm : List (Str × ContactInfo)) (remoteJid normalizedJid phone : Str) :
    ContactInfo :=
  (((lookupS cm remoteJid).orElse
      (fun _ => lookupS cm normalizedJid)).orElse
      (fun _ => lookupS cm phone)).getD ContactInfo.empty

/-- The row's profile picture: contact picture → chat-level picture →
(groups only) the pre-fetched group-picture cache. -/
def chatPpic (env : ChatsEnv) (is_group : Bool) (remoteJid : Str) (chat : RawChat)
    (ci : ContactInfo) : Option Str :=
  let p := if optStr ci.profile_pic ≠ [] then ci.profile_pic else chat.profilePicUrl
  if is_group ∧ optStr p = [] then (lookupS env.groupPics remoteJid).getD none else p

/-- Final stage of the row builder: the `@lid` unusable-name skip, the
display-phone selection, and the row record itself. -/
def chatRowBuild (env : ChatsEnv) (is_group is_lid : Bool)
    (remoteJid normalizedJid displayJid : Str) (chat : RawChat)
    (phone : Str) (ci : ContactInfo) (name : Str) : Option ChatRow :=
  if is_lid ∧ (name = [] ∨ (isDigits name ∧ name.length > 12)) then none
  else
    some
      { id := if is_lid then displayJid else remoteJid
        remote_jid := if is_lid then displayJid else remoteJid
        phone :=
          if (if is_lid then
                if optStr ci.phone_jid ≠ [] then cleanPhoneNumber (optStr ci.phone_jid) else []
              else if is_group then []
              else phone) ≠ [] then
            (if is_lid then
              if optStr ci.phone_jid ≠ [] then cleanPhoneNumber (optStr ci.phone_jid) else []
            else if is_group then []
            else phone)
          else name
        name := name
        last_message :=
          if (chatPreviewOpt chat.lastMessage).1 ≠ [] then
            (chatPreviewOpt chat.lastMessage).1.take 100
          else []
        last_message_type := (chatPreviewOpt chat.lastMessage).2
        last_message_time := chatTimeStr env.nowIso chat
        unread_count := chat.unreadCount
        is_group := is_group
        profile_pic := chatPpic env is_group remoteJid chat ci
        is_banned := decide (phone ∈ env.banned)
        platform := "whatsapp".data
        lid_jid := if is_lid then some remoteJid else none
        phone_jid := if normalizedJid ≠ remoteJid then some normalizedJid else none }

/-- Middle stage of the row builder: the banned-user and search filters. -/
def chatRowFiltered (env : ChatsEnv) (search : Option Str) (showBanned : Bool)
    (is_group is_lid : Bool) (remoteJid normalizedJid displayJid : Str)
    (chat : RawChat) (phone : Str) (ci : ContactInfo) (name : Str) : Option ChatRow :=
  if decide (phone ∈ env.banned) ∧ ¬showBanned then none
  else if optStr search ≠ [] ∧
      ¬strContains (toLower name) (toLower (optStr search)) ∧
      ¬strContains phone (toLower (optStr search)) then none
  else chatRowBuild env is_group is_lid remoteJid normalizedJid displayJid chat phone ci name

/-- The display-name resolution of the main loop: the group chain for
groups, the individual fallback chain otherwise. -/
def chatDisplayName (env : ChatsEnv) (is_group : Bool) (remoteJid : Str)
    (chat : RawChat) (ci : ContactInfo) (phone : Str) : Str :=
  if is_group then groupDisplayName env.groupNames remoteJid chat ci phone
  else individualName ci chat phone remoteJid

/-- Name stage of the row builder: resolve the display name and apply
the empty-name guard. -/
def chatRowNamed (env : ChatsEnv) (search : Option Str) (showBanned : Bool)
    (is_group is_lid : Bool) (remoteJid normalizedJid displayJid : Str)
    (chat : RawChat) (phone : Str) (ci : ContactInfo) : Option ChatRow :=
  if chatDisplayName env is_group remoteJid chat ci phone = [] then none
  else
    chatRowFiltered env search showBanned is_group is_lid remoteJid normalizedJid displayJid
      chat phone ci (chatDisplayName env is_group remoteJid chat ci phone)

/-- The body of one main-loop iteration after dedup: apply the
broadcast/empty/name/ban/search filters and build the row, or return
`none` when any `continue` fires. -/
def chatRowOf (env : ChatsEnv) (search : Option Str) (showBanned : Bool)
    (is_group is_lid : Bool) (remoteJid normalizedJid displayJid : Str)
    (chat : RawChat) : Option ChatRow :=
  if strContains remoteJid "status@broadcast".data ∨ strContains remoteJid "broadcast".data then
    none
  else if chat.lastMessage.isNone ∧ chat.unreadCount = 0 then none
  else
    chatRowNamed env search showBanned is_group is_lid remoteJid normalizedJid displayJid chat
      (cleanPhoneNumber remoteJid)
      (contactLookup env.contactsMap remoteJid normalizedJid (cleanPhoneNumber remoteJid))

/-- Normalized/display JID resolution for one chat: for a mapped `@lid`
chat, normalize to the mapped phone JID, but skip the chat (`none`) when
the latest-timestamp map says the direct chat owns the newer message. -/
def chatNormJid (lidToPhone : List (Str × Str)) (tsMap : List (Str × (Nat × Str)))
    (is_lid : Bool) (remoteJid : Str) : Option (Str × Str) :=
  if is_lid then
    match lookupS lidToPhone remoteJid with
    | some phoneJid =>
      match lookupS tsMap phoneJid with
      | some tl => if tl.2 = remoteJid then some (phoneJid, remoteJid) else none
      | none => some (phoneJid, remoteJid)
    | none => some (remoteJid, remoteJid)
  else some (remoteJid, remoteJid)

/-- One main-loop iteration: resolve the normalized/display JID pair for
`@lid` chats (skipping a mapped `@lid` chat that does not own the latest
message), dedup by normalized JID, then run the row builder.  The
insertion-ordered `seen` dict holds `none` for chats that were marked
seen but then filtered out. -/
def chatStep (env : ChatsEnv) (tsMap : List (Str × (Nat × Str)))
    (search : Option Str) (showBanned : Bool)
    (seen : List (Str × Option ChatRow)) (chat : RawChat) :
    List (Str × Option ChatRow) :=
  let remoteJid := chat.remoteJid
  if remoteJid = [] then seen
  else
    let is_group := strContains remoteJid gusSuffix
    let is_lid := strContains remoteJid lidSuffix
    match chatNormJid env.lidToPhone tsMap is_lid remoteJid with
    | none => seen
    | some nd =>
      if (lookupS seen nd.1).isSome then seen
      else
        match chatRowOf env search showBanned is_group is_lid remoteJid nd.1 nd.2 chat with
        | none => seen ++ [(nd.1, none)]
        | some row => seen ++ [(nd.1, some row)]

/-- Stable descending insertion by `last_message_time` (Python
`list.sort(key=..., reverse=True)` keeps the original order of ties). -/
def insertRowDesc (r : ChatRow) : List ChatRow → List ChatRow
  | [] => [r]
  | x :: xs =>
    if strLtB x.last_message_time r.last_message_time then r :: x :: xs
    else x :: insertRowDesc r xs

/-- Sort the collected rows most-recent-first. -/
def sortRowsDesc (l : List ChatRow) : List ChatRow :=
  l.foldl (fun acc r => insertRowDesc r acc) []

/-- `get_whatsapp_chats`: first pass, deduplicating main loop, sort by
recency, pre-pagination total, then offset/limit slicing. -/
def getWhatsappChats (env : ChatsEnv) (chats : List RawChat) (lim off : Nat)
    (search : Option Str) (showBanned : Bool) : List ChatRow × Nat :=
  let tsMap := chatsFirstPass env.lidToPhone chats
  let seen := chats.foldl (chatStep env tsMap search showBanned) []
  let result := seen.filterMap (fun e => e.2)
  let sorted := sortRowsDesc result
  let total := sorted.length
  ((sorted.drop off).take lim, total)

/-!
## Claim C1: recency tie-break between a mapped `@lid` chat and its direct chat
-/

/-- The direct (phone-shaped) JID of the C1 scenario contact. -/
def c1DirectJid : Str := "5551112222@s.whatsapp.net".data

/-- The internal (`@lid`) JID of the C1 scenario contact. -/
def c1LidJid : Str := "8887776655444@lid".data

/-- C1 scenario environment: the contact directory knows the `@lid` JID
(with its mapped phone JID and the display name `Alice`), and the
`@lid → phone` map links the two JIDs. -/
def c1Env : ChatsEnv :=
  { contactsMap := [(c1LidJid,
      { name := some "Alice".data, subject := none, profile_pic := none,
        is_group := false, phone_jid := some c1DirectJid, lid_jid := some c1LidJid })],
    lidToPhone := [(c1LidJid, c1DirectJid)],
    groupNames := [], groupPics := [], banned := [],
    nowIso := "1970-01-01T00:00:00".data }

/-- A raw chat with a plain-text last message at timestamp `ts`. -/
def c1Chat (jid : Str) (ts : Nat) (txt : Str) : RawChat :=
  { remoteJid := jid,
    lastMessage := some
      { messageTimestamp := some ts, pushName := none, messageType := [],
        message := some
          { ChatMsgBody.empty with conversation := some txt } },
    unreadCount := 0, subject := none, notify := none, verifiedName := none,
    pushName := none, name := none, updatedAt := none, profilePicUrl := none }

/-- The direct-kind chat of the scenario, with preview `older message`. -/
def c1DirectChat (t : Nat) : RawChat := c1Chat c1DirectJid t "older message".data

/-- The internal-kind chat of the scenario, with preview `newer message`. -/
def c1LidChat (t : Nat) : RawChat := c1Chat c1LidJid t "newer message".data

/-- The single row the aggregator produces for the C1 contact when the
`@lid` chat (timestamp `t`) wins: it carries the `@lid` chat's preview
text and timestamp, the mapped phone number, and both linked JIDs. -/
def c1RowL (t : Nat) : ChatRow :=
  { id := c1LidJid, remote_jid := c1LidJid, phone := "5551112222".data,
    name := "Alice".data, last_message := "newer message".data,
    last_message_type := "text".data, last_message_time := isoformat t,
    unread_count := 0, is_group := false, profile_pic := none,
    is_banned := false, platform := "whatsapp".data,
    lid_jid := some c1LidJid, phone_jid := some c1DirectJid }

/-- C1, counterexample: the tie-break is **not** order-independent.  With
the direct chat (T1 = 100) listed *before* its mapped `@lid` chat
(T2 = 200), the aggregator still produces exactly one row, but that row
carries the direct chat's stale preview and timestamp (T1), not T2's:
the main loop inserts the direct chat's row first and then skips the
`@lid` chat as a normalized-JID duplicate. -/
theorem chat_recency_order_cex :
    (getWhatsappChats c1Env [c1DirectChat 100, c1LidChat 200] 50 0 none false).1.map
        (fun r => (r.last_message, r.last_message_time)) =
      [("older message".data, isoformat 100)] ∧
      ("older message".data, isoformat 100) ≠ ("newer message".data, isoformat 200) := by
  decide

/-- C1 (amended): when the mapped `@lid` chat (last-message timestamp
`t2`) appears *before* its direct chat (timestamp `t1 < t2`) in the raw
chat list, the aggregation produces exactly one `ChatSummary` row for the
contact, and that row carries the later chat's preview text and
timestamp.  (In the opposite raw order the single row instead carries the
first-listed — here stale — chat's preview, see the counterexample.) -/
theorem chat_recency_internal_first (t1 t2 : Nat) (h0 : 0 < t1) (hlt : t1 < t2) :
    getWhatsappChats c1Env [c1LidChat t2, c1DirectChat t1] 50 0 none false =
      ([c1RowL t2], 1) := by
  obtain ⟨n, rfl⟩ : ∃ n, t2 = n + 1 := ⟨t2 - 1, by omega⟩
  have hgt : ¬t1 > n + 1 := by omega
  have e1 : chatsFirstPass c1Env.lidToPhone [c1LidChat (n + 1), c1DirectChat t1] =
      [(c1DirectJid, (n + 1, c1LidJid))] := by
    show (if t1 > n + 1
        then setOrAdd [(c1DirectJid, (n + 1, c1LidJid))] c1DirectJid (t1, c1DirectJid)
        else [(c1DirectJid, (n + 1, c1LidJid))]) = [(c1DirectJid, (n + 1, c1LidJid))]
    exact if_neg hgt
  have e2 : chatStep c1Env [(c1DirectJid, (n + 1, c1LidJid))] none false []
      (c1LidChat (n + 1)) = [(c1DirectJid, some (c1RowL (n + 1)))] := by
    have f1 : strContains c1LidJid gusSuffix = false := by decide
    have f2 : strContains c1LidJid lidSuffix = true := by decide
    have f3 : strContains c1LidJid "status@broadcast".data = false := by decide
    have f4 : strContains c1LidJid "broadcast".data = false := by decide
    have f5 : cleanPhoneNumber c1LidJid = [] := by decide
    have f6 : cleanPhoneNumber c1DirectJid = "5551112222".data := by decide
    have f10 : "newer message".data.take 100 = "newer message".data := by decide
    simp +decide [chatStep, chatNormJid, chatRowOf, chatRowNamed, chatDisplayName,
      chatRowFiltered, chatRowBuild, contactLookup, chatPpic, lookupS, c1Env, c1LidChat,
      c1Chat, c1RowL,
      individualName, individualNameCandidate, nameOk, optStr, chatPreviewOpt, chatPreview,
      chatTimeStr, ChatMsgBody.empty, Option.orElse, f1, f2, f3, f4, f5, f6, f10]
  simp only [getWhatsappChats]
  rw [e1]
  simp only [List.foldl_cons, List.foldl_nil]
  rw [e2]
  rfl

/-- C1 witness: the amended theorem at T1 = 100, T2 = 200. -/
theorem chat_recency_internal_first_witness :
    ((0 : Nat) < 100 ∧ (100 : Nat) < 200) ∧
      getWhatsappChats c1Env [c1LidChat 200, c1DirectChat 100] 50 0 none false =
        ([c1RowL 200], 1) :=
  ⟨⟨by decide, by decide⟩, chat_recency_internal_first 100 200 (by decide) (by decide)⟩

/-!
## Claims C7 and C10: dedup invariant and non-empty display names
-/

/-- The canonical (normalized) identity key of a chat row: the stored
phone JID when the row came from a mapped `@lid` chat, else the row's
own JID. -/
def chatRowKey (r : ChatRow) : Str := r.phone_jid.getD r.remote_jid

theorem lookupS_eq_none {α : Type} {m : List (Str × α)} {k : Str}
    (h : lookupS m k = none) : ∀ p ∈ m, p.1 ≠ k := by
  induction m with
  | nil => simp
  | cons q t ih =>
    obtain ⟨k', v⟩ := q
    simp only [lookupS] at h
    by_cases hk : k' = k
    · simp [hk] at h
    · intro p hp
      rcases List.mem_cons.mp hp with hp | hp
      · subst hp; exact hk
      · exact ih (by simpa [hk] using h) p hp

/-- A row emitted by the row builder carries its insertion key: its
stored `phone_jid` (when the normalized JID differs from the raw one)
or its own JID is exactly the normalized JID it was deduplicated by. -/
theorem chatRowBuild_key {env : ChatsEnv} {g l : Bool} {rj nj : Str} {chat : RawChat}
    {phone : Str} {ci : ContactInfo} {name : Str} {row : ChatRow}
    (h : chatRowBuild env g l rj nj rj chat phone ci name = some row) :
    chatRowKey row = nj := by
  simp only [chatRowBuild] at h
  split at h
  · exact absurd h (by simp)
  · rw [Option.some.injEq] at h
    subst h
    simp only [chatRowKey]
    by_cases hnr : nj = rj
    · simp [hnr]
    · simp [hnr]

theorem chatRowBuild_name {env : ChatsEnv} {g l : Bool} {rj nj dj : Str} {chat : RawChat}
    {phone : Str} {ci : ContactInfo} {name : Str} {row : ChatRow}
    (h : chatRowBuild env g l rj nj dj chat phone ci name = some row) :
    row.name = name := by
  simp only [chatRowBuild] at h
  split at h
  · exact absurd h (by simp)
  · rw [Option.some.injEq] at h
    subst h
    rfl

theorem chatRowFiltered_build {env : ChatsEnv} {search : Option Str} {sb g l : Bool}
    {rj nj dj : Str} {chat : RawChat} {phone : Str} {ci : ContactInfo} {name : Str}
    {row : ChatRow}
    (h : chatRowFiltered env search sb g l rj nj dj chat phone ci name = some row) :
    chatRowBuild env g l rj nj dj chat phone ci name = some row := by
  simp only [chatRowFiltered] at h
  split at h
  · exact absurd h (by simp)
  · split at h
    · exact absurd h (by simp)
    · exact h

theorem chatRowOf_build {env : ChatsEnv} {search : Option Str} {sb g l : Bool}
    {rj nj dj : Str} {chat : RawChat} {row : ChatRow}
    (h : chatRowOf env search sb g l rj nj dj chat = some row) :
    ∃ name, name ≠ [] ∧
      chatRowBuild env g l rj nj dj chat (cleanPhoneNumber rj)
        (contactLookup env.contactsMap rj nj (cleanPhoneNumber rj)) name = some row := by
  simp only [chatRowOf] at h
  split at h
  · exact absurd h (by simp)
  · split at h
    · exact absurd h (by simp)
    · simp only [chatRowNamed] at h
      split at h
      · exact absurd h (by simp)
      · next hname => exact ⟨_, hname, chatRowFiltered_build h⟩

/-- A row emitted by the row builder carries its insertion key and a
non-empty name. -/
theorem chatRowOf_key_name {env : ChatsEnv} {search : Option Str} {sb g l : Bool}
    {rj nj : Str} {chat : RawChat} {row : ChatRow}
    (h : chatRowOf env search sb g l rj nj rj chat = some row) :
    chatRowKey row = nj ∧ row.name ≠ [] := by
  obtain ⟨name, hname, hb⟩ := chatRowOf_build h
  exact ⟨chatRowBuild_key hb, by rw [chatRowBuild_name hb]; exact hname⟩

/-- A normalized/display pair produced by `chatNormJid` always carries
the raw JID as its display component. -/
theorem chatNormJid_display {ltp : List (Str × Str)} {tsMap : List (Str × (Nat × Str))}
    {l : Bool} {rj : Str} {nd : Str × Str}
    (h : chatNormJid ltp tsMap l rj = some nd) : nd.2 = rj := by
  simp only [chatNormJid] at h
  split at h
  · split at h
    · split at h
      · split at h
        · rw [Option.some.injEq] at h; subst h; rfl
        · exact absurd h (by simp)
      · rw [Option.some.injEq] at h; subst h; rfl
    · rw [Option.some.injEq] at h; subst h; rfl
  · rw [Option.some.injEq] at h; subst h; rfl

/-- Invariant of the insertion-ordered `seen` dict: keys are distinct,
and every stored row carries its key and a non-empty name. -/
def SeenInv (seen : List (Str × Option ChatRow)) : Prop :=
  (seen.map Prod.fst).Nodup ∧
    ∀ p ∈ seen, ∀ r, p.2 = some r → chatRowKey r = p.1 ∧ r.name ≠ []

theorem seenInv_nil : SeenInv [] := ⟨List.nodup_nil, by simp⟩

theorem seenInv_append {seen : List (Str × Option ChatRow)} {k : Str} {v : Option ChatRow}
    (hinv : SeenInv seen) (hfresh : lookupS seen k = none)
    (hval : ∀ r, v = some r → chatRowKey r = k ∧ r.name ≠ []) :
    SeenInv (seen ++ [(k, v)]) := by
  obtain ⟨hnd, hvals⟩ := hinv
  constructor
  · rw [List.map_append]
    simp only [List.map_cons, List.map_nil]
    rw [List.nodup_append]
    refine ⟨hnd, List.nodup_singleton k, ?_⟩
    intro a ha hb
    simp only [List.mem_singleton] at hb
    subst hb
    obtain ⟨p, hp, hpa⟩ := List.mem_map.mp ha
    exact lookupS_eq_none hfresh p hp hpa
  · intro p hp r hr
    rcases List.mem_append.mp hp with hp | hp
    · exact hvals p hp r hr
    · simp only [List.mem_singleton] at hp
      subst hp
      exact hval r hr

theorem chatStep_inv (env : ChatsEnv) (tsMap : List (Str × (Nat × Str)))
    (search : Option Str) (sb : Bool) (chat : RawChat)
    {seen : List (Str × Option ChatRow)} (h : SeenInv seen) :
    SeenInv (chatStep env tsMap search sb seen chat) := by
  simp only [chatStep]
  split
  · exact h
  · split
    · exact h
    · rename_i nd hn
      have hdisp : nd.2 = chat.remoteJid := chatNormJid_display hn
      split
      · exact h
      · rename_i hfresh
        have hfresh' : lookupS seen nd.1 = none := by
          cases hlk : lookupS seen nd.1 with
          | none => rfl
          | some r => rw [hlk] at hfresh; simp at hfresh
        split
        · exact seenInv_append h hfresh' (by simp)
        · rename_i row hrow
          refine seenInv_append h hfresh' ?_
          intro r hr
          rw [Option.some.injEq] at hr
          subst hr
          rw [hdisp] at hrow
          exact chatRowOf_key_name hrow

theorem seenInv_foldl (env : ChatsEnv) (tsMap : List (Str × (Nat × Str)))
    (search : Option Str) (sb : Bool) (chats : List RawChat) :
    ∀ seen, SeenInv seen → SeenInv (chats.foldl (chatStep env tsMap search sb) seen) := by
  induction chats with
  | nil => intro seen h; exact h
  | cons c t ih =>
    intro seen h
    exact ih _ (chatStep_inv env tsMap search sb c h)

/-- The rows extracted from a `seen` dict satisfying the invariant have
pairwise-distinct canonical keys and non-empty names. -/
theorem seenInv_rows {seen : List (Str × Option ChatRow)} (h : SeenInv seen) :
    (seen.filterMap (fun e => e.2)).Pairwise
        (fun a b => chatRowKey a ≠ chatRowKey b) ∧
      ∀ r ∈ seen.filterMap (fun e => e.2), r.name ≠ [] := by
  induction seen with
  | nil => simp
  | cons p rest ih =>
    obtain ⟨hnd, hval⟩ := h
    obtain ⟨k, v⟩ := p
    simp only [List.map_cons, List.nodup_cons] at hnd
    have hrest : SeenInv rest :=
      ⟨hnd.2, fun q hq r hr => hval q (List.mem_cons_of_mem _ hq) r hr⟩
    obtain ⟨ihp, ihn⟩ := ih hrest
    cases v with
    | none => simp only [List.filterMap_cons]; exact ⟨ihp, ihn⟩
    | some r =>
      obtain ⟨hkey, hname⟩ := hval (k, some r) (List.mem_cons_self _ _) r rfl
      simp only [List.filterMap_cons]
      constructor
      · refine List.Pairwise.cons ?_ ihp
        intro r' hr'
        obtain ⟨q, hq, hq2⟩ := List.mem_filterMap.mp hr'
        obtain ⟨hkey', -⟩ := hval q (List.mem_cons_of_mem _ hq) r' hq2
        have hqk : q.1 ≠ k := by
          intro he
          exact hnd.1 (he ▸ List.mem_map.mpr ⟨q, hq, rfl⟩)
        rw [hkey, hkey']
        exact fun he => hqk he.symm
      · intro r' hr'
        rcases List.mem_cons.mp hr' with hr' | hr'
        · subst hr'; exact hname
        · exact ihn r' hr'

theorem insertRowDesc_perm (r : ChatRow) (l : List ChatRow) :
    List.Perm (insertRowDesc r l) (r :: l) := by
  induction l with
  | nil => exact List.Perm.refl _
  | cons x xs ih =>
    simp only [insertRowDesc]
    split
    · exact List.Perm.refl _
    · exact (ih.cons x).trans (List.Perm.swap r x xs)

theorem sortRowsDesc_perm (l : List ChatRow) : List.Perm (sortRowsDesc l) l := by
  have key : ∀ (t acc : List ChatRow),
      List.Perm (t.foldl (fun a r => insertRowDesc r a) acc) (acc ++ t) := by
    intro t
    induction t with
    | nil => intro acc; simp
    | cons r t ih =>
      intro acc
      have h1 := ih (insertRowDesc r acc)
      have h2 : List.Perm (insertRowDesc r acc ++ t) (acc ++ r :: t) :=
        ((insertRowDesc_perm r acc).append_right t).trans List.perm_middle.symm
      exact h1.trans h2
  simpa [sortRowsDesc] using key l []

/-- C7 (confirmed): for every chat-list request — any raw chat list,
contact directory, mapping, caches, banned set, limit, offset, search
and show-banned inputs — no two rows of the returned page share the same
canonical (normalized) identity key. -/
theorem chat_rows_distinct_keys (env : ChatsEnv) (chats : List RawChat)
    (lim off : Nat) (search : Option Str) (sb : Bool) :
    ((getWhatsappChats env chats lim off search sb).1).Pairwise
      (fun a b => chatRowKey a ≠ chatRowKey b) := by
  simp only [getWhatsappChats]
  have hfold := seenInv_foldl env (chatsFirstPass env.lidToPhone chats) search sb chats
    [] seenInv_nil
  obtain ⟨hpair, -⟩ := seenInv_rows hfold
  have hperm := sortRowsDesc_perm
    ((chats.foldl (chatStep env (chatsFirstPass env.lidToPhone chats) search sb)
      []).filterMap (fun e => e.2))
  have hsorted := (hperm.pairwise_iff
    (fun hab => fun he => hab he.symm)).mpr hpair
  exact hsorted.sublist
    ((List.take_sublist _ _).trans (List.drop_sublist _ _))

/-- C10, part of the claim: the individual-name fallback chain always
ends in a non-empty value (an accepted candidate, the phone number, or
the `+<jid digits>` fallback). -/
theorem individualName_ne_nil (ci : ContactInfo) (chat : RawChat) (phone rj : Str) :
    individualName ci chat phone rj ≠ [] := by
  simp only [individualName]
  split
  · next hok =>
    simp only [nameOk, Bool.and_eq_true, decide_eq_true_eq] at hok
    exact hok.1
  · split
    · next hp => exact hp
    · simp

/-- C10, part of the claim: the group-name fallback chain always ends in
a non-empty value (cached subject, chat subject, contact subject/name,
or the generated `"مجموعة <suffix>"` label). -/
theorem groupDisplayName_ne_nil (gn : List (Str × Str)) (rj : Str) (chat : RawChat)
    (ci : ContactInfo) (ph : Str) : groupDisplayName gn rj chat ci ph ≠ [] := by
  simp only [groupDisplayName]
  split
  · next h => exact h
  · split
    · next h => exact h
    · split
      · next h => exact h
      · split
        · next h => exact h
        · simp

/-- C10 (confirmed): the display-name fallback chain of the chat
aggregator always terminates in a non-empty value — so the guard that
skips rows whose name is still empty can never fire — and consequently
every row of every returned chat-list page has a non-empty display
name. -/
theorem chat_rows_nonempty_name :
    (∀ (env : ChatsEnv) (g : Bool) (rj : Str) (chat : RawChat) (ci : ContactInfo)
        (ph : Str), chatDisplayName env g rj chat ci ph ≠ []) ∧
      ∀ (env : ChatsEnv) (chats : List RawChat) (lim off : Nat) (search : Option Str)
        (sb : Bool), ∀ r ∈ (getWhatsappChats env chats lim off search sb).1, r.name ≠ [] := by
  constructor
  · intro env g rj chat ci ph
    simp only [chatDisplayName]
    split
    · exact groupDisplayName_ne_nil env.groupNames rj chat ci ph
    · exact individualName_ne_nil ci chat ph rj
  · intro env chats lim off search sb r hr
    simp only [getWhatsappChats] at hr
    have hfold := seenInv_foldl env (chatsFirstPass env.lidToPhone chats) search sb chats
      [] seenInv_nil
    obtain ⟨-, hnames⟩ := seenInv_rows hfold
    have hperm := sortRowsDesc_perm
      ((chats.foldl (chatStep env (chatsFirstPass env.lidToPhone chats) search sb)
        []).filterMap (fun e => e.2))
    have hr' := ((List.take_sublist _ _).trans (List.drop_sublist _ _)).subset hr
    exact hnames r (hperm.mem_iff.mp hr')

/-- C10 witness: the non-empty-name theorem applied to the row produced
by the two-chat scenario environment. -/
theorem chat_rows_nonempty_name_witness :
    c1RowL 200 ∈ (getWhatsappChats c1Env [c1LidChat 200, c1DirectChat 100] 50 0 none false).1 ∧
      (c1RowL 200).name ≠ [] :=
  ⟨by decide,
    chat_rows_nonempty_name.2 c1Env [c1LidChat 200, c1DirectChat 100] 50 0 none false
      (c1RowL 200) (by decide)⟩

/-!
## Message merger: `get_whatsapp_chat_messages` (routes.py lines 1110–1558)

The 30-second per-page response cache (lines 1128–1135, 1552–1556) is a
replay wrapper around the computation below and is not modelled; the
gateway message fetch, the instance-owner JID, the group-participant
roster, the group subject and the contact profile are threaded as
explicit inputs.
-/

/-- The `key` dict of a raw message. -/
structure MsgKey where
  id : Str
  fromMe : Bool
  participant : Str
  participantAlt : Str
  remoteJid : Option Str
  remoteJidAlt : Str
deriving DecidableEq

/-- A media sub-dict of a raw message (`imageMessage`, `videoMessage`,
`audioMessage`, `documentMessage`, `stickerMessage`, `reactionMessage`
are uniform field bags; each kind reads its own subset of keys). -/
structure MediaPart where
  caption : Option Str
  mimetype : Option Str
  seconds : Option Nat
  jpegThumbnail : Option Str
  ptt : Bool
  fileName : Option Str
  text : Option Str
deriving DecidableEq

/-- The `{}` default for absent media sub-dicts. -/
def MediaPart.empty : MediaPart := ⟨none, none, none, none, false, none, none⟩

/-- The `message` dict of a raw message. -/
structure MsgContent where
  conversation : Option Str
  extendedText : Option Str
  imageMessage : Option MediaPart
  videoMessage : Option MediaPart
  audioMessage : Option MediaPart
  documentMessage : Option MediaPart
  stickerMessage : Option MediaPart
  reactionMessage : Option MediaPart
deriving DecidableEq

/-- The `{}` default for `msg.get("message") or {}`. -/
def MsgContent.empty : MsgContent := ⟨none, none, none, none, none, none, none, none⟩

/-- One raw message record from the gateway. -/
structure RawMsg where
  key : MsgKey
  messageTimestamp : Option Nat
  pushName : Str
  source : Str
  ack : Option Nat
  status : Option Nat
  message : Option MsgContent
deriving DecidableEq

/-- One rendered message of the response page (`type` is rendered as
`mtype`). -/
structure MsgRow where
  id : Str
  content : Str
  from_me : Bool
  timestamp : Str
  sender_name : Str
  sender_jid : Option Str
  sender_pic : Option Str
  status : Option Nat
  mtype : Str
  media_url : Option Str
  media_mimetype : Option Str
  media_duration : Option Nat
  media_thumbnail : Option Str
  remote_jid : Str
deriving DecidableEq

/-- A gateway message-fetch response: records plus the optional reported
total. -/
structure MsgFetch where
  records : List RawMsg
  total : Option Nat
deriving DecidableEq

/-- One group-participant roster entry. -/
structure Participant where
  id : Str
  phoneNumber : Str
  imgUrl : Option Str
  name : Option Str
deriving DecidableEq

/-- A contact-profile fetch result (name and picture). -/
structure ProfileInfo where
  name : Option Str
  picture : Option Str
deriving DecidableEq

/-- Python `a or b` on optional strings: keep `a` when truthy. -/
def orTruthy (a b : Option Str) : Option Str := if optStr a ≠ [] then a else b

/-- The alternate (direct) JID resolution for an `@lid` chat: the
contact entry's linked phone JID, else the `@lid → phone` map. -/
def alternateJidOf (cm : List (Str × ContactInfo)) (ltp : List (Str × Str))
    (remoteJid : Str) : Option Str :=
  let ci := (lookupS cm remoteJid).getD ContactInfo.empty
  if optStr ci.phone_jid ≠ [] then ci.phone_jid else lookupS ltp remoteJid

/-- Message timestamp with the `.get("messageTimestamp", 0)` default. -/
def tsOf (m : RawMsg) : Nat := m.messageTimestamp.getD 0

/-- Stable descending insertion by timestamp (Python
`sort(key=..., reverse=True)`). -/
def insertMsgDesc (m : RawMsg) : List RawMsg → List RawMsg
  | [] => [m]
  | x :: xs => if tsOf x < tsOf m then m :: x :: xs else x :: insertMsgDesc m xs

/-- Sort raw messages newest-first. -/
def sortMsgsDesc (l : List RawMsg) : List RawMsg :=
  l.foldl (fun acc m => insertMsgDesc m acc) []

/-- First pass of the per-request `@lid → phone` map: every message key
carrying an `@lid` participant together with a direct-shaped
`participantAlt`. -/
def buildMsgLidMap (msgs : List RawMsg) : List (Str × Str) :=
  msgs.foldl
    (fun m msg =>
      let pl := msg.key.participant
      let pa := msg.key.participantAlt
      if pl ≠ [] ∧ strContains pl lidSuffix ∧ pa ≠ [] ∧ strContains pa waSuffix then
        setOrAdd m pl pa
      else m)
    []

/-- Python `base.update(upd)`. -/
def updateMap (base upd : List (Str × Str)) : List (Str × Str) :=
  upd.foldl (fun m kv => setOrAdd m kv.1 kv.2) base

/-- The three maps built from the group-participant roster:
`@lid id → phone`, phone → picture, phone → name (pictures and names
stored under both the cleaned and the full phone number). -/
def buildParticipantMaps (participants : List Participant) :
    List (Str × Str) × List (Str × Str) × List (Str × Str) :=
  participants.foldl
    (fun (ms : List (Str × Str) × List (Str × Str) × List (Str × Str)) p =>
      if p.id ≠ [] ∧ p.phoneNumber ≠ [] then
        let clean := replaceAll waSuffix [] p.phoneNumber
        let gm := setOrAdd ms.1 p.id p.phoneNumber
        let pics :=
          if optStr p.imgUrl ≠ [] then
            setOrAdd (setOrAdd ms.2.1 clean (optStr p.imgUrl)) p.phoneNumber (optStr p.imgUrl)
          else ms.2.1
        let names :=
          if optStr p.name ≠ [] then
            setOrAdd (setOrAdd ms.2.2 clean (optStr p.name)) p.phoneNumber (optStr p.name)
          else ms.2.2
        (gm, pics, names)
      else ms)
    ([], [], [])

/-- Uppercase hexadecimal digit. -/
def hexDigit (n : Nat) : Char := if n < 10 then Nat.digitChar n else Char.ofNat (55 + n)

/-- Models `urllib.parse.quote(s, safe="")`: unreserved ASCII characters
pass through, everything else is percent-encoded byte-wise.  (Multi-byte
UTF-8 encoding of non-ASCII characters is external-library behavior not
exercised by any claim; such characters are encoded here from their
low code-point byte.) -/
def urlQuote (s : Str) : Str :=
  s.foldr
    (fun c acc =>
      if c.isAlphanum ∨ c = '_' ∨ c = '.' ∨ c = '-' ∨ c = '~' then c :: acc
      else '%' :: hexDigit (c.toNat / 16 % 16) :: hexDigit (c.toNat % 16) :: acc)
    []

/-- The ambient inputs of the per-message rendering loop. -/
structure RenderCtx where
  remoteJid : Str
  is_group : Bool
  is_lid : Bool
  ownerJid : Str
  lidMap : List (Str × Str)
  contactsMap : List (Str × ContactInfo)
  partPics : List (Str × Str)
  partNames : List (Str × Str)
  nowIso : Str
deriving DecidableEq

/-- Sender resolution for inbound group messages (routes.py lines
1380–1479): prefer the direct `participantAlt` identifier, then the
mapping; resolve the display name via contact directory →
group-participant roster → push name → cleaned phone number → generic
`مشارك` fallback, rejecting purely-numeric leaked internal IDs. -/
def senderResolve (ctx : RenderCtx) (msg : RawMsg) (from_me : Bool) :
    Str × Option Str × Option Str :=
  let push_name := msg.pushName
  if ctx.is_group ∧ ¬from_me then
    let participant_lid := msg.key.participant
    let pa0 := msg.key.participantAlt
    let participant_alt :=
      if pa0 = [] ∧ participant_lid ≠ [] ∧ (lookupS ctx.lidMap participant_lid).isSome then
        optStr (lookupS ctx.lidMap participant_lid)
      else pa0
    let participant :=
      if participant_alt ≠ [] ∧ strContains participant_alt waSuffix then participant_alt
      else if participant_lid ≠ [] then participant_lid
      else participant_alt
    if participant = [] then (push_name, none, none)
    else
      let is_lid_name := push_name ≠ [] ∧ isDigits push_name ∧ push_name.length > 10
      let looked :=
        if push_name = [] ∨ push_name ∈ cacheSelfNames ∨ is_lid_name then
          let ci0 : Option ContactInfo :=
            if participant_alt ≠ [] then
              match lookupS ctx.contactsMap participant_alt with
              | some c => some c
              | none => lookupS ctx.contactsMap (cleanPhoneNumber participant_alt)
            else none
          let ci1 : Option ContactInfo :=
            match ci0 with
            | some c => some c
            | none =>
              match lookupS ctx.contactsMap participant with
              | some c => some c
              | none => lookupS ctx.contactsMap (cleanPhoneNumber participant)
          let cinfo := ci1.getD ContactInfo.empty
          let cname := optStr cinfo.name
          (if cname ≠ [] ∧ ¬(isDigits cname ∧ cname.length > 10) then cname else push_name,
            cinfo.profile_pic)
        else (push_name, none)
      let sp2 :=
        if optStr looked.2 = [] then
          let cp := cleanPhoneNumber (if participant_alt ≠ [] then participant_alt else participant)
          orTruthy (lookupS ctx.partPics cp)
            (orTruthy (lookupS ctx.partPics participant_alt) (lookupS ctx.partPics participant))
        else looked.2
      let sn2 :=
        if looked.1 = [] ∨ looked.1 ∈ cacheSelfNames ∨
            (isDigits looked.1 ∧ looked.1.length > 10) then
          let cp := cleanPhoneNumber (if participant_alt ≠ [] then participant_alt else participant)
          let pn := orTruthy (lookupS ctx.partNames cp)
            (orTruthy (lookupS ctx.partNames participant_alt) (lookupS ctx.partNames participant))
          if optStr pn ≠ [] then optStr pn else looked.1
        else looked.1
      let sn3 :=
        if sn2 = [] ∨ sn2 ∈ cacheSelfNames ∨ (isDigits sn2 ∧ sn2.length > 10) then
          if participant_alt ≠ [] ∧ strContains participant_alt waSuffix then
            if cleanPhoneNumber participant_alt ≠ [] then cleanPhoneNumber participant_alt
            else if push_name ≠ [] ∧ ¬is_lid_name then push_name
            else "مشارك".data
          else if strContains participant waSuffix then
            if cleanPhoneNumber participant ≠ [] then cleanPhoneNumber participant
            else if push_name ≠ [] ∧ ¬is_lid_name then push_name
            else "مشارك".data
          else if push_name ≠ [] ∧ ¬is_lid_name then push_name
          else "مشارك".data
        else sn2
      let sn4 :=
        if sn3 ≠ [] ∧ (strContains sn3 lidSuffix ∨
            (isDigits (replaceAll ['@'] [] sn3) ∧ sn3.length > 15)) then "مشارك".data
        else sn3
      (sn4, some participant, sp2)
  else (push_name, none, none)

/-- The type/content/media classification of one message, in the fixed
source probe order. -/
structure MsgClass where
  mtype : Str
  content : Str
  mimetype : Option Str
  duration : Option Nat
  thumbnail : Option Str
  hasMedia : Bool
deriving DecidableEq

/-- Base64 thumbnail rendering (`data:image/jpeg;base64,<data>`) for a
truthy `jpegThumbnail` field. -/
def thumbOf (m : MediaPart) : Option Str :=
  match m.jpegThumbnail with
  | some td => if td ≠ [] then some ("data:image/jpeg;base64,".data ++ td) else none
  | none => none

/-- Classify one message and fix its content per type (routes.py lines
1306–1362). -/
def classifyMsg (md : MsgContent) (content : Str) : MsgClass :=
  if md.imageMessage.isSome then
    let m := md.imageMessage.getD MediaPart.empty
    ⟨"image".data, content, m.mimetype, none, thumbOf m, true⟩
  else if md.videoMessage.isSome then
    let m := md.videoMessage.getD MediaPart.empty
    ⟨"video".data, content, m.mimetype, m.seconds, thumbOf m, true⟩
  else if md.audioMessage.isSome then
    let m := md.audioMessage.getD MediaPart.empty
    ⟨if m.ptt then "voice".data else "audio".data, [], m.mimetype, m.seconds, none, true⟩
  else if md.documentMessage.isSome then
    let m := md.documentMessage.getD MediaPart.empty
    ⟨"document".data, m.fileName.getD "Document".data, m.mimetype, none, none, true⟩
  else if md.stickerMessage.isSome then
    let m := md.stickerMessage.getD MediaPart.empty
    ⟨"sticker".data, [], m.mimetype, none, thumbOf m, true⟩
  else if md.reactionMessage.isSome then
    let m := md.reactionMessage.getD MediaPart.empty
    ⟨"reaction".data, m.text.getD [], none, none, none, false⟩
  else ⟨"text".data, content, none, none, none, false⟩

/-- Render one raw message into a response row (routes.py lines
1241–1496): direction heuristic, content extraction, mention rewrite,
classification, media-proxy URL, timestamp, sender resolution. -/
def renderMessage (ctx : RenderCtx) (msg : RawMsg) : MsgRow :=
  let msg_id := msg.key.id
  let from_me :=
    if ctx.is_lid ∧ ¬msg.key.fromMe ∧ ctx.ownerJid ≠ [] ∧
        ("3A".data.isPrefixOf msg_id ∨ "3EB".data.isPrefixOf msg_id) then true
    else msg.key.fromMe
  let md := msg.message.getD MsgContent.empty
  let content0 :=
    if optStr md.conversation ≠ [] then optStr md.conversation
    else if optStr md.extendedText ≠ [] then optStr md.extendedText
    else if optStr ((md.imageMessage.getD MediaPart.empty).caption) ≠ [] then
      optStr ((md.imageMessage.getD MediaPart.empty).caption)
    else if optStr ((md.videoMessage.getD MediaPart.empty).caption) ≠ [] then
      optStr ((md.videoMessage.getD MediaPart.empty).caption)
    else []
  let cls := classifyMsg md (rewriteMentions ctx.lidMap ctx.contactsMap content0)
  let media_url :=
    if cls.hasMedia ∧ msg_id ≠ [] then
      some ("/media/".data ++ msg_id ++ "?remote_jid=".data ++ urlQuote ctx.remoteJid ++
        "&from_me=".data ++ (if from_me then "true".data else "false".data))
    else none
  let time_str := if tsOf msg ≠ 0 then isoformat (tsOf msg) else ctx.nowIso
  let sender := senderResolve ctx msg from_me
  { id := msg_id
    content := cls.content
    from_me := from_me
    timestamp := time_str
    sender_name := sender.1
    sender_jid := sender.2.1
    sender_pic := sender.2.2
    status := msg.ack.orElse (fun _ => msg.status)
    mtype := cls.mtype
    media_url := media_url
    media_mimetype := cls.mimetype
    media_duration := cls.duration
    media_thumbnail := cls.thumbnail
    remote_jid := msg.key.remoteJid.getD ctx.remoteJid }

/-- The dedup-and-render loop: skip a message whose id was already seen,
render and record the id otherwise (first occurrence wins). -/
def dedupRender (ctx : RenderCtx) : List RawMsg → List Str → List MsgRow
  | [], _ => []
  | m :: rest, seen =>
    if m.key.id ∈ seen then dedupRender ctx rest seen
    else renderMessage ctx m :: dedupRender ctx rest (m.key.id :: seen)

/-- Stable ascending insertion of rendered rows by timestamp string. -/
def insertMsgRowAsc (r : MsgRow) : List MsgRow → List MsgRow
  | [] => [r]
  | x :: xs => if strLtB r.timestamp x.timestamp then r :: x :: xs else x :: insertMsgRowAsc r xs

/-- Final oldest-first re-sort of the rendered page. -/
def sortMsgRowsAsc (l : List MsgRow) : List MsgRow :=
  l.foldl (fun acc r => insertMsgRowAsc r acc) []

/-- The response page: rendered items, total record count, and the chat
header (flattened with a `chat_` prefix). -/
structure MsgPage where
  items : List MsgRow
  total : Nat
  chat_remote_jid : Str
  chat_phone : Str
  chat_name : Str
  chat_profile_pic : Option Str
  chat_is_group : Bool
deriving DecidableEq

/-- The render context assembled by `get_whatsapp_chat_messages` for a
given merged message list. -/
def msgRenderCtx (remoteJid : Str) (cm : List (Str × ContactInfo)) (ownerJid : Str)
    (participants : List Participant) (nowIso : Str) (merged : List RawMsg) : RenderCtx :=
  let is_group := strContains remoteJid gusSuffix
  let pm := if is_group then buildParticipantMaps participants else ([], [], [])
  { remoteJid := remoteJid
    is_group := is_group
    is_lid := strContains remoteJid lidSuffix
    ownerJid := ownerJid
    lidMap := updateMap (buildMsgLidMap merged) pm.1
    contactsMap := cm
    partPics := pm.2.1
    partNames := pm.2.2
    nowIso := nowIso }

/-- The chat-header name and picture (routes.py lines 1501–1538). -/
def msgChatHeader (remoteJid : Str) (cm : List (Str × ContactInfo))
    (groupSubject : Option Str) (profile : Option ProfileInfo) : Str × Option Str :=
  let is_group := strContains remoteJid gusSuffix
  let phone := cleanPhoneNumber remoteJid
  let ci :=
    match lookupS cm remoteJid with
    | some c => c
    | none => (lookupS cm phone).getD ContactInfo.empty
  if is_group then
    (if optStr groupSubject ≠ [] then optStr groupSubject
     else
       let c := if optStr ci.subject ≠ [] then optStr ci.subject else optStr ci.name
       if c = [] ∨ c ∈ cacheSelfNames then
         if phone.length > 6 then "مجموعة ".data ++ lastN 6 phone
         else "مجموعة ".data ++ phone
       else c,
      ci.profile_pic)
  else
    let n0 := optStr ci.name
    let pic0 := ci.profile_pic
    let pr :=
      match profile with
      | some pr =>
        (if optStr pic0 = [] ∧ optStr pr.picture ≠ [] then pr.picture else pic0,
          if optStr pr.name ≠ [] ∧ (n0 = [] ∨ n0 ∈ cacheSelfNames) then optStr pr.name else n0)
      | none => (pic0, n0)
    let n2 := if pr.2 ∈ cacheSelfNames then [] else pr.2
    (if n2 = [] then phone else n2, pr.1)

/-- `get_whatsapp_chat_messages` (the compute path behind the 30-second
response cache): fetch the primary page from `gw`, merge the mapped
alternate JID's page on page 1 of an `@lid` chat, dedup by message id,
render, re-sort oldest-first, and attach the chat header. -/
def computeMessages (remoteJid : Str) (lim page : Nat)
    (cm : List (Str × ContactInfo)) (ltp : List (Str × Str)) (ownerJid : Str)
    (gw : Str → MsgFetch) (participants : List Participant)
    (groupSubject : Option Str) (profile : Option ProfileInfo) (nowIso : Str) : MsgPage :=
  let is_group := strContains remoteJid gusSuffix
  let is_lid := strContains remoteJid lidSuffix
  let primary := gw remoteJid
  let alternateJid := if is_lid then alternateJidOf cm ltp remoteJid else none
  let merged :=
    if is_lid ∧ optStr alternateJid ≠ [] ∧ page = 1 then
      ((sortMsgsDesc (primary.records ++ (gw (optStr alternateJid)).records)).take lim,
        max (primary.total.getD primary.records.length)
          ((gw (optStr alternateJid)).total.getD 0))
    else (primary.records, primary.total.getD primary.records.length)
  let ctx := msgRenderCtx remoteJid cm ownerJid participants nowIso merged.1
  let header := msgChatHeader remoteJid cm groupSubject profile
  { items := sortMsgRowsAsc (dedupRender ctx merged.1 [])
    total := merged.2
    chat_remote_jid := remoteJid
    chat_phone := cleanPhoneNumber remoteJid
    chat_name := header.1
    chat_profile_pic := header.2
    chat_is_group := is_group }

/-!
## Claim C2: the reported total under the secondary merge
-/

/-- The `@lid` JID of the C2/C8 scenario. -/
def c2Lid : Str := "7771234567890@lid".data

/-- The mapped direct JID of the C2/C8 scenario. -/
def c2Direct : Str := "15550001111@s.whatsapp.net".data

/-- Contact directory linking the `@lid` JID to its phone JID. -/
def c2Cm : List (Str × ContactInfo) :=
  [(c2Lid, ⟨some "Bob".data, none, none, false, some c2Direct, some c2Lid⟩)]

/-- A gateway returning an empty page with reported total 5 for the
`@lid` chat and total 10 for the mapped direct chat. -/
def c2Gw : Str → MsgFetch := fun j => if j = c2Lid then ⟨[], some 5⟩ else ⟨[], some 10⟩

/-- C2, counterexample: the returned total is **not** always the
primary fetch's reported total.  For the `@lid` chat (primary total 5)
whose mapped alternate reports total 10, the merge takes
`max(5, 10) = 10`, inflating the response total beyond the primary
fetch's. -/
theorem messages_total_cex :
    (computeMessages c2Lid 50 1 c2Cm [] [] c2Gw [] none none "T".data).total = 10 ∧
      (c2Gw c2Lid).total = some 5 ∧ (10 : Nat) ≠ 5 := by decide

/-- C2 (amended): the total record count returned by the message-page
computation is the primary fetch's reported total, **except** when the
secondary merge runs (an `@lid` chat with a truthy mapped alternate JID,
on page 1), in which case it is the maximum of the primary's reported
total and the alternate fetch's reported total. -/
theorem messages_total_eq (remoteJid : Str) (lim page : Nat)
    (cm : List (Str × ContactInfo)) (ltp : List (Str × Str)) (ownerJid : Str)
    (gw : Str → MsgFetch) (participants : List Participant)
    (groupSubject : Option Str) (profile : Option ProfileInfo) (nowIso : Str) :
    (computeMessages remoteJid lim page cm ltp ownerJid gw participants groupSubject
        profile nowIso).total =
      if strContains remoteJid lidSuffix = true ∧
          optStr (if strContains remoteJid lidSuffix then alternateJidOf cm ltp remoteJid
            else none) ≠ [] ∧ page = 1 then
        max ((gw remoteJid).total.getD (gw remoteJid).records.length)
          ((gw (optStr (if strContains remoteJid lidSuffix then alternateJidOf cm ltp remoteJid
            else none))).total.getD 0)
      else (gw remoteJid).total.getD (gw remoteJid).records.length := by
  simp only [computeMessages]
  split <;> split <;> simp_all

/-!
## Claim C8: merge dedup — each id once, first occurrence wins
-/

/-- Modelled from the spec's words ("Deduplicate by message id (first
occurrence wins)"): keep each element whose message id has not appeared
earlier in the list.  This is the specification-side description the
seen-set loop of the code is compared against. -/
def keepFirstOcc : List RawMsg → List RawMsg
  | [] => []
  | m :: rest => m :: keepFirstOcc (rest.filter (fun x => x.key.id ≠ m.key.id))
termination_by l => l.length
decreasing_by
  simp only [List.length_cons]
  exact Nat.lt_succ_of_le (List.length_filter_le _ _)

theorem renderMessage_id (ctx : RenderCtx) (m : RawMsg) :
    (renderMessage ctx m).id = m.key.id := rfl

/-- The dedup-and-render loop renders exactly the first occurrence of
each id not yet seen. -/
theorem dedupRender_eq (ctx : RenderCtx) :
    ∀ (l : List RawMsg) (seen : List Str),
      dedupRender ctx l seen =
        (keepFirstOcc (l.filter (fun m => m.key.id ∉ seen))).map (renderMessage ctx) := by
  intro l
  induction l with
  | nil => intro seen; simp [dedupRender, keepFirstOcc]
  | cons m rest ih =>
    intro seen
    by_cases hm : m.key.id ∈ seen
    · simp only [dedupRender, if_pos hm, List.filter_cons]
      rw [if_neg (by simp [hm])]
      exact ih seen
    · simp only [dedupRender, if_neg hm, List.filter_cons]
      rw [if_pos (by simp [hm])]
      rw [keepFirstOcc]
      simp only [List.map_cons]
      congr 1
      rw [ih (m.key.id :: seen), List.filter_filter]
      have heq : List.filter (fun x => decide (x.key.id ∉ m.key.id :: seen)) rest
          = List.filter
              (fun a => decide (a.key.id ≠ m.key.id) && decide (a.key.id ∉ seen)) rest := by
        apply List.filter_congr
        intro x _
        by_cases h1 : x.key.id = m.key.id <;> by_cases h2 : x.key.id ∈ seen <;>
          simp [h1, h2]
      rw [heq]

theorem keepFirstOcc_subset_aux :
    ∀ (n : Nat) (l : List RawMsg), l.length ≤ n → ∀ x ∈ keepFirstOcc l, x ∈ l := by
  intro n
  induction n with
  | zero =>
    intro l hl
    have : l = [] := List.length_eq_zero.mp (Nat.le_zero.mp hl)
    subst this
    simp [keepFirstOcc]
  | succ n ih =>
    intro l hl x hx
    cases l with
    | nil => simp [keepFirstOcc] at hx
    | cons m rest =>
      rw [keepFirstOcc] at hx
      rcases List.mem_cons.mp hx with h | h
      · subst h; exact List.mem_cons_self _ _
      · have hlen : (rest.filter (fun x => x.key.id ≠ m.key.id)).length ≤ n := by
          have := List.length_filter_le (fun x : RawMsg => decide (x.key.id ≠ m.key.id)) rest
          simp only [List.length_cons] at hl
          omega
        have hsub := ih _ hlen x h
        exact List.mem_cons_of_mem _ (List.mem_of_mem_filter hsub)

theorem keepFirstOcc_nodup_aux :
    ∀ (n : Nat) (l : List RawMsg), l.length ≤ n →
      ((keepFirstOcc l).map (fun m => m.key.id)).Nodup := by
  intro n
  induction n with
  | zero =>
    intro l hl
    have : l = [] := List.length_eq_zero.mp (Nat.le_zero.mp hl)
    subst this
    simp [keepFirstOcc]
  | succ n ih =>
    intro l hl
    cases l with
    | nil => simp [keepFirstOcc]
    | cons m rest =>
      rw [keepFirstOcc]
      simp only [List.map_cons, List.nodup_cons]
      have hlen : (rest.filter (fun x => x.key.id ≠ m.key.id)).length ≤ n := by
        have := List.length_filter_le (fun x : RawMsg => decide (x.key.id ≠ m.key.id)) rest
        simp only [List.length_cons] at hl
        omega
      refine ⟨?_, ih _ hlen⟩
      intro hmem
      obtain ⟨x, hx, hxid⟩ := List.mem_map.mp hmem
      have hxf := keepFirstOcc_subset_aux n _ hlen x hx
      have := List.of_mem_filter hxf
      simp only [decide_eq_true_eq] at this
      exact this hxid

/-- Every id appears at most once after the first-occurrence filter. -/
theorem keepFirstOcc_nodup (l : List RawMsg) :
    ((keepFirstOcc l).map (fun m => m.key.id)).Nodup :=
  keepFirstOcc_nodup_aux l.length l (Nat.le_refl _)

theorem insertMsgRowAsc_perm (r : MsgRow) (l : List MsgRow) :
    List.Perm (insertMsgRowAsc r l) (r :: l) := by
  induction l with
  | nil => exact List.Perm.refl _
  | cons x xs ih =>
    simp only [insertMsgRowAsc]
    split
    · exact List.Perm.refl _
    · exact (ih.cons x).trans (List.Perm.swap r x xs)

theorem sortMsgRowsAsc_perm (l : List MsgRow) : List.Perm (sortMsgRowsAsc l) l := by
  have key : ∀ (t acc : List MsgRow),
      List.Perm (t.foldl (fun a r => insertMsgRowAsc r a) acc) (acc ++ t) := by
    intro t
    induction t with
    | nil => intro acc; simp
    | cons r t ih =>
      intro acc
      have h1 := ih (insertMsgRowAsc r acc)
      have h2 : List.Perm (insertMsgRowAsc r acc ++ t) (acc ++ r :: t) :=
        ((insertMsgRowAsc_perm r acc).append_right t).trans List.perm_middle.symm
      exact h1.trans h2
  simpa [sortMsgRowsAsc] using key l []

/-- C8 (confirmed): for the merge scenario — an `@lid` chat with a
truthy mapped alternate JID, on page 1 — the returned message page is a
permutation (the final oldest-first re-sort) of the rendered
first-occurrence filter of the merged, newest-first-sorted, truncated
record sequence, and its message ids are pairwise distinct.  In
particular each duplicated id keeps exactly the record occurring first
in the newest-first-sorted merge. -/
theorem messages_merge_first_occurrence (remoteJid : Str) (lim : Nat)
    (cm : List (Str × ContactInfo)) (ltp : List (Str × Str)) (ownerJid : Str)
    (gw : Str → MsgFetch) (participants : List Participant)
    (groupSubject : Option Str) (profile : Option ProfileInfo) (nowIso : Str)
    (hlid : strContains remoteJid lidSuffix = true)
    (halt : optStr (alternateJidOf cm ltp remoteJid) ≠ []) :
    List.Perm
        (computeMessages remoteJid lim 1 cm ltp ownerJid gw participants groupSubject
          profile nowIso).items
        ((keepFirstOcc ((sortMsgsDesc ((gw remoteJid).records ++
            (gw (optStr (alternateJidOf cm ltp remoteJid))).records)).take lim)).map
          (renderMessage (msgRenderCtx remoteJid cm ownerJid participants nowIso
            ((sortMsgsDesc ((gw remoteJid).records ++
              (gw (optStr (alternateJidOf cm ltp remoteJid))).records)).take lim)))) ∧
      ((computeMessages remoteJid lim 1 cm ltp ownerJid gw participants groupSubject
          profile nowIso).items.map (fun r => r.id)).Nodup := by
  have hcond : strContains remoteJid lidSuffix = true ∧
      optStr (if strContains remoteJid lidSuffix then alternateJidOf cm ltp remoteJid
        else none) ≠ [] ∧ (1 : Nat) = 1 := by
    rw [if_pos hlid]
    exact ⟨hlid, halt, rfl⟩
  have halt' : (if strContains remoteJid lidSuffix then alternateJidOf cm ltp remoteJid
      else none) = alternateJidOf cm ltp remoteJid := if_pos hlid
  simp only [computeMessages, halt', hlid, halt, true_and, and_true, if_true]
  rw [if_pos halt]
  dsimp only
  have hfilter : ∀ (l : List RawMsg),
      l.filter (fun m => m.key.id ∉ ([] : List Str)) = l := by
    intro l
    induction l with
    | nil => rfl
    | cons a t ih => simp [List.filter_cons, ih]
  have hdr := dedupRender_eq
    (msgRenderCtx remoteJid cm ownerJid participants nowIso
      ((sortMsgsDesc ((gw remoteJid).records ++
        (gw (optStr (alternateJidOf cm ltp remoteJid))).records)).take lim))
    ((sortMsgsDesc ((gw remoteJid).records ++
      (gw (optStr (alternateJidOf cm ltp remoteJid))).records)).take lim) []
  rw [hfilter] at hdr
  have hcomp : ∀ ctx : RenderCtx,
      ((fun r : MsgRow => r.id) ∘ renderMessage ctx) = fun m : RawMsg => m.key.id :=
    fun ctx => funext fun m => rfl
  constructor
  · rw [hdr]
    exact sortMsgRowsAsc_perm _
  · rw [hdr]
    refine ((sortMsgRowsAsc_perm _).map (fun r => r.id)).nodup_iff.mpr ?_
    rw [List.map_map, hcomp]
    exact keepFirstOcc_nodup _

/-- A bare raw message with the given id and timestamp. -/
def c8Msg (i : Str) (t : Nat) : RawMsg :=
  ⟨⟨i, false, [], [], none, []⟩, some t, [], [], none, none, none⟩

/-- A gateway whose primary (`@lid`) page and mapped alternate page
overlap on message id `B`, with different timestamps. -/
def c8Gw : Str → MsgFetch := fun j =>
  if j = c2Lid then ⟨[c8Msg "A".data 30, c8Msg "B".data 20], some 2⟩
  else ⟨[c8Msg "B".data 25, c8Msg "C".data 10], some 2⟩

/-- C8 witness: the merge theorem applied to the overlapping two-fetch
scenario. -/
theorem messages_merge_first_occurrence_witness :
    (strContains c2Lid lidSuffix = true ∧
        optStr (alternateJidOf c2Cm [] c2Lid) ≠ []) ∧
      (List.Perm
          (computeMessages c2Lid 50 1 c2Cm [] [] c8Gw [] none none "T".data).items
          ((keepFirstOcc ((sortMsgsDesc ((c8Gw c2Lid).records ++
              (c8Gw (optStr (alternateJidOf c2Cm [] c2Lid))).records)).take 50)).map
            (renderMessage (msgRenderCtx c2Lid c2Cm [] [] "T".data
              ((sortMsgsDesc ((c8Gw c2Lid).records ++
                (c8Gw (optStr (alternateJidOf c2Cm [] c2Lid))).records)).take 50)))) ∧
        ((computeMessages c2Lid 50 1 c2Cm [] [] c8Gw [] none none "T".data).items.map
          (fun r => r.id)).Nodup) :=
  ⟨⟨by decide, by decide⟩,
    messages_merge_first_occurrence c2Lid 50 c2Cm [] [] c8Gw [] none none "T".data
      (by decide) (by decide)⟩

end Leblebbot
